import Mathlib

/-!
# OMAP display encoders: TFP410 (DPI to DVI) and virtual HDMI to DVI

A shallow embedding of the link operations of

* `drivers/video/fbdev/omap2/displays-new/encoder-tfp410.c`
* `drivers/gpu/drm/omapdrm/displays/encoder-hdmitodvi.c`

Pointers to `struct omap_dss_device` are handles into a device table, so that
aliasing between the node, its input and the devices handed in by the caller
is kept.  Calls through the input's operation table (`in->ops.dpi->...`,
`in->ops.hdmi->...`) go to a parameter of type `UpstreamOps`; every such call
and every `gpio_set_value_cansleep` is appended to a log in program order.
-/

namespace OmapEncoder

/-! ## Data model -/

/-- A non-null `struct omap_dss_device *`. -/
abbrev DevId := Nat

/-- Errno `EBUSY` of `errno-base.h`. -/
def EBUSY : Int := 16

/-- Errno `ENODEV` of `errno-base.h`. -/
def ENODEV : Int := 19

/-- The `enum omap_dss_display_state` of the DSS header. -/
inductive omap_dss_display_state where
  | OMAP_DSS_DISPLAY_DISABLED
  | OMAP_DSS_DISPLAY_ACTIVE
  deriving DecidableEq

/-- The `enum omap_dss_signal_edge` of the DSS header. -/
inductive omap_dss_signal_edge where
  | OMAPDSS_DRIVE_SIG_FALLING_EDGE
  | OMAPDSS_DRIVE_SIG_RISING_EDGE
  deriving DecidableEq

/-- The `enum omap_dss_signal_level` of the DSS header. -/
inductive omap_dss_signal_level where
  | OMAPDSS_SIG_ACTIVE_LOW
  | OMAPDSS_SIG_ACTIVE_HIGH
  deriving DecidableEq

open omap_dss_display_state omap_dss_signal_edge omap_dss_signal_level

/-- The `struct omap_video_timings`: the three fields `tfp410_fix_timings`
writes, and all its other fields together as `rest`. -/
structure omap_video_timings (ρ : Type) where
  data_pclk_edge : omap_dss_signal_edge
  sync_pclk_edge : omap_dss_signal_edge
  de_level : omap_dss_signal_level
  rest : ρ
  deriving DecidableEq

/-- The fields of `struct omap_dss_device` the two drivers read or write:
`src`, `dst`, `state` and the panel timing (`panel.timings`, `panel.vm`). -/
structure omap_dss_device (T : Type) where
  src : Option DevId
  dst : Option DevId
  state : omap_dss_display_state
  panel_timings : T

/-- The device table: what each `struct omap_dss_device *` points at. -/
abbrev Devs (T : Type) := DevId → omap_dss_device T

/-- One entry of the log: a call made through the input's operation table
(first argument: the input it is made on) or a write to a GPIO pin. -/
inductive Call (T : Type) where
  | connect (in_ : DevId) (dst : DevId)
  | disconnect (in_ : DevId) (dst : DevId)
  | enable (in_ : DevId)
  | disable (in_ : DevId)
  | set_timings (in_ : DevId) (timings : T)
  | check_timings (in_ : DevId) (timings : T)
  | set_data_lines (in_ : DevId) (data_lines : Int)
  | gpio_set_value (gpio : Int) (value : Int)
  deriving DecidableEq

/-- The operation table of the input device (`struct omapdss_dpi_ops`,
`struct omapdss_hdmi_ops`).  The implementation is outside these drivers: each
operation may rewrite the device table it can reach through the pointers it is
handed, and returns what its C prototype returns.  `check_timings` is handed
the caller's descriptor by pointer and may write through it:
`check_timings_fixup` is the descriptor it leaves behind that pointer.
`set_timings` returns nothing and is taken to read the descriptor it is
handed. -/
structure UpstreamOps (T : Type) where
  connect : Devs T → DevId → DevId → Int × Devs T
  disconnect : Devs T → DevId → DevId → Devs T
  enable : Devs T → DevId → Int × Devs T
  disable : Devs T → DevId → Devs T
  set_timings : Devs T → DevId → T → Devs T
  check_timings : Devs T → DevId → T → Int × Devs T
  check_timings_fixup : Devs T → DevId → T → T
  set_data_lines : Devs T → DevId → Int → Devs T

/-- The machine state a driver call runs in: the driver data of the node, the
device table, the log of forwarded calls and pin writes, and the number of
`WARN_ON` conditions that fired. -/
structure World (D T : Type) where
  ddata : D
  devs : Devs T
  calls : List (Call T)
  warnings : Nat

/-- The assignment `d->src = v`. -/
def set_src {T : Type} (devs : Devs T) (d : DevId) (v : Option DevId) : Devs T :=
  Function.update devs d { devs d with src := v }

/-- The assignment `d->dst = v`. -/
def set_dst {T : Type} (devs : Devs T) (d : DevId) (v : Option DevId) : Devs T :=
  Function.update devs d { devs d with dst := v }

/-- The assignment `d->state = s`. -/
def set_state {T : Type} (devs : Devs T) (d : DevId) (s : omap_dss_display_state) :
    Devs T :=
  Function.update devs d { devs d with state := s }

/-- The assignment `d->panel.timings = t` (`d->panel.vm = t`). -/
def set_panel_timings {T : Type} (devs : Devs T) (d : DevId) (t : T) : Devs T :=
  Function.update devs d { devs d with panel_timings := t }

/-- Modelled from the spec: the inline helper `omapdss_device_is_connected` of
the DSS header, which is not among the sources.  A device is connected when
its own `src` link is set, the link the upstream sets when it accepts a
connect and clears on disconnect. -/
def omapdss_device_is_connected {T : Type} (dssdev : omap_dss_device T) : Bool :=
  dssdev.src.isSome

/-- Modelled from the spec: the inline helper `omapdss_device_is_enabled` of the
DSS header, which is not among the sources.  A device is enabled when its
display state is `OMAP_DSS_DISPLAY_ACTIVE`. -/
def omapdss_device_is_enabled {T : Type} (dssdev : omap_dss_device T) : Bool :=
  decide (dssdev.state = OMAP_DSS_DISPLAY_ACTIVE)

/-- A call through the input's operation table, or a pin write: the log gets
the entry and the device table becomes what the callee left. -/
def World.logged {D T : Type} (w : World D T) (c : Call T) (devs : Devs T) : World D T :=
  { w with devs := devs, calls := w.calls ++ [c] }

/-- A `WARN_ON(cond)`: counts the warning when the condition holds. -/
def World.WARN_ON {D T : Type} (w : World D T) (cond : Bool) : World D T :=
  if cond then { w with warnings := w.warnings + 1 } else w

/-! ## encoder-tfp410.c -/

/-- The `struct panel_drv_data` of encoder-tfp410.c; `dssdev` is the handle of
the embedded device, the one `to_panel_data` is applied to. -/
structure panel_drv_data (ρ : Type) where
  dssdev : DevId
  in_ : DevId
  pd_gpio : Int
  data_lines : Int
  timings : omap_video_timings ρ

/-- State of a TFP410 node. -/
abbrev TfpWorld (ρ : Type) := World (panel_drv_data ρ) (omap_video_timings ρ)

/-- The `tfp410_connect` of encoder-tfp410.c. -/
def tfp410_connect {ρ : Type} (up : UpstreamOps (omap_video_timings ρ))
    (w : TfpWorld ρ) (dst : DevId) : Int × TfpWorld ρ :=
  let dssdev := w.ddata.dssdev
  let in_ := w.ddata.in_
  if omapdss_device_is_connected (w.devs dssdev) then
    (-EBUSY, w)
  else
    let r := up.connect w.devs in_ dssdev
    let w1 := w.logged (Call.connect in_ dssdev) r.2
    if r.1 ≠ 0 then
      (r.1, w1)
    else
      let w2 := { w1 with devs := set_src w1.devs dst (some dssdev) }
      let w3 := { w2 with devs := set_dst w2.devs dssdev (some dst) }
      (0, w3)

/-- The `tfp410_disconnect` of encoder-tfp410.c. -/
def tfp410_disconnect {ρ : Type} (up : UpstreamOps (omap_video_timings ρ))
    (w : TfpWorld ρ) (dst : DevId) : TfpWorld ρ :=
  let dssdev := w.ddata.dssdev
  let in_ := w.ddata.in_
  let w0 := w.WARN_ON (!omapdss_device_is_connected (w.devs dssdev))
  if !omapdss_device_is_connected (w0.devs dssdev) then
    w0
  else
    let w1 := w0.WARN_ON (decide (some dst ≠ (w0.devs dssdev).dst))
    if some dst ≠ (w1.devs dssdev).dst then
      w1
    else
      let w2 := { w1 with devs := set_src w1.devs dst none }
      let w3 := { w2 with devs := set_dst w2.devs dssdev none }
      w3.logged (Call.disconnect in_ dssdev) (up.disconnect w3.devs in_ dssdev)

/-- The `tfp410_enable` of encoder-tfp410.c.  The `gpio_is_valid` test of the
GPIO header is a parameter. -/
def tfp410_enable {ρ : Type} (gpio_is_valid : Int → Bool)
    (up : UpstreamOps (omap_video_timings ρ)) (w : TfpWorld ρ) : Int × TfpWorld ρ :=
  let dssdev := w.ddata.dssdev
  let in_ := w.ddata.in_
  if !omapdss_device_is_connected (w.devs dssdev) then
    (-ENODEV, w)
  else if omapdss_device_is_enabled (w.devs dssdev) then
    (0, w)
  else
    let w1 := w.logged (Call.set_timings in_ w.ddata.timings)
      (up.set_timings w.devs in_ w.ddata.timings)
    let w2 :=
      if w1.ddata.data_lines ≠ 0 then
        w1.logged (Call.set_data_lines in_ w1.ddata.data_lines)
          (up.set_data_lines w1.devs in_ w1.ddata.data_lines)
      else w1
    let r := up.enable w2.devs in_
    let w3 := w2.logged (Call.enable in_) r.2
    if r.1 ≠ 0 then
      (r.1, w3)
    else
      let w4 :=
        if gpio_is_valid w3.ddata.pd_gpio then
          w3.logged (Call.gpio_set_value w3.ddata.pd_gpio 1) w3.devs
        else w3
      (0, { w4 with devs := set_state w4.devs dssdev OMAP_DSS_DISPLAY_ACTIVE })

/-- The `tfp410_disable` of encoder-tfp410.c. -/
def tfp410_disable {ρ : Type} (gpio_is_valid : Int → Bool)
    (up : UpstreamOps (omap_video_timings ρ)) (w : TfpWorld ρ) : TfpWorld ρ :=
  let dssdev := w.ddata.dssdev
  let in_ := w.ddata.in_
  if !omapdss_device_is_enabled (w.devs dssdev) then
    w
  else
    let w1 :=
      if gpio_is_valid w.ddata.pd_gpio then
        w.logged (Call.gpio_set_value w.ddata.pd_gpio 0) w.devs
      else w
    let w2 := w1.logged (Call.disable in_) (up.disable w1.devs in_)
    { w2 with devs := set_state w2.devs dssdev OMAP_DSS_DISPLAY_DISABLED }

/-- The `tfp410_fix_timings` of encoder-tfp410.c: the descriptor behind the
pointer after the three assignments. -/
def tfp410_fix_timings {ρ : Type} (timings : omap_video_timings ρ) :
    omap_video_timings ρ :=
  let t1 := { timings with data_pclk_edge := OMAPDSS_DRIVE_SIG_RISING_EDGE }
  let t2 := { t1 with sync_pclk_edge := OMAPDSS_DRIVE_SIG_RISING_EDGE }
  { t2 with de_level := OMAPDSS_SIG_ACTIVE_HIGH }

/-- The `tfp410_set_timings` of encoder-tfp410.c.  Returns the new state and
the caller's descriptor as the call leaves it behind the pointer. -/
def tfp410_set_timings {ρ : Type} (up : UpstreamOps (omap_video_timings ρ))
    (w : TfpWorld ρ) (timings : omap_video_timings ρ) :
    TfpWorld ρ × omap_video_timings ρ :=
  let dssdev := w.ddata.dssdev
  let in_ := w.ddata.in_
  let timings := tfp410_fix_timings timings
  let w1 := { w with ddata := { w.ddata with timings := timings } }
  let w2 := { w1 with devs := set_panel_timings w1.devs dssdev timings }
  (w2.logged (Call.set_timings in_ timings) (up.set_timings w2.devs in_ timings), timings)

/-- The `tfp410_get_timings` of encoder-tfp410.c: the descriptor written
behind the caller's pointer. -/
def tfp410_get_timings {ρ : Type} (w : TfpWorld ρ) : omap_video_timings ρ :=
  w.ddata.timings

/-- The `tfp410_check_timings` of encoder-tfp410.c.  Returns the result, the
new state and the caller's descriptor as the call leaves it behind the
pointer: normalized in place by `tfp410_fix_timings`, then handed by that same
pointer to the input's `check_timings`. -/
def tfp410_check_timings {ρ : Type} (up : UpstreamOps (omap_video_timings ρ))
    (w : TfpWorld ρ) (timings : omap_video_timings ρ) :
    Int × TfpWorld ρ × omap_video_timings ρ :=
  let in_ := w.ddata.in_
  let timings := tfp410_fix_timings timings
  let r := up.check_timings w.devs in_ timings
  (r.1, w.logged (Call.check_timings in_ timings) r.2,
    up.check_timings_fixup w.devs in_ timings)

/-! ## encoder-hdmitodvi.c -/

/-- The `struct drv_data` of encoder-hdmitodvi.c; `V` is `struct videomode`. -/
structure drv_data (V : Type) where
  dssdev : DevId
  in_ : DevId
  vm : V

/-- State of an HDMI-to-DVI node. -/
abbrev HtodWorld (V : Type) := World (drv_data V) V

/-- The `htod_connect` of encoder-hdmitodvi.c. -/
def htod_connect {V : Type} (up : UpstreamOps V) (w : HtodWorld V) (dst : DevId) :
    Int × HtodWorld V :=
  let dssdev := w.ddata.dssdev
  let in_ := w.ddata.in_
  let r := up.connect w.devs in_ dssdev
  let w1 := w.logged (Call.connect in_ dssdev) r.2
  if r.1 ≠ 0 then
    (r.1, w1)
  else
    let w2 := { w1 with devs := set_src w1.devs dst (some dssdev) }
    let w3 := { w2 with devs := set_dst w2.devs dssdev (some dst) }
    (0, w3)

/-- The `htod_disconnect` of encoder-hdmitodvi.c. -/
def htod_disconnect {V : Type} (up : UpstreamOps V) (w : HtodWorld V) (dst : DevId) :
    HtodWorld V :=
  let dssdev := w.ddata.dssdev
  let in_ := w.ddata.in_
  let w0 := w.WARN_ON (decide (some dst ≠ (w.devs dssdev).dst))
  if some dst ≠ (w0.devs dssdev).dst then
    w0
  else
    let w1 := { w0 with devs := set_src w0.devs dst none }
    let w2 := { w1 with devs := set_dst w1.devs dssdev none }
    w2.logged (Call.disconnect in_ dssdev) (up.disconnect w2.devs in_ dssdev)

/-- The `htod_enable` of encoder-hdmitodvi.c. -/
def htod_enable {V : Type} (up : UpstreamOps V) (w : HtodWorld V) : Int × HtodWorld V :=
  let dssdev := w.ddata.dssdev
  let in_ := w.ddata.in_
  if (w.devs dssdev).state = OMAP_DSS_DISPLAY_ACTIVE then
    (0, w)
  else
    let w1 := w.logged (Call.set_timings in_ w.ddata.vm) (up.set_timings w.devs in_ w.ddata.vm)
    let r := up.enable w1.devs in_
    let w2 := w1.logged (Call.enable in_) r.2
    if r.1 ≠ 0 then
      (r.1, w2)
    else
      (r.1, { w2 with devs := set_state w2.devs dssdev OMAP_DSS_DISPLAY_ACTIVE })

/-- The `htod_disable` of encoder-hdmitodvi.c. -/
def htod_disable {V : Type} (up : UpstreamOps V) (w : HtodWorld V) : HtodWorld V :=
  let dssdev := w.ddata.dssdev
  let in_ := w.ddata.in_
  if (w.devs dssdev).state ≠ OMAP_DSS_DISPLAY_ACTIVE then
    w
  else
    let w1 := w.logged (Call.disable in_) (up.disable w.devs in_)
    { w1 with devs := set_state w1.devs dssdev OMAP_DSS_DISPLAY_DISABLED }

/-- The `htod_set_timings` of encoder-hdmitodvi.c.  Returns the new state and
the caller's descriptor as the call leaves it behind the pointer. -/
def htod_set_timings {V : Type} (up : UpstreamOps V) (w : HtodWorld V) (vm : V) :
    HtodWorld V × V :=
  let dssdev := w.ddata.dssdev
  let in_ := w.ddata.in_
  let w1 := { w with ddata := { w.ddata with vm := vm } }
  let w2 := { w1 with devs := set_panel_timings w1.devs dssdev vm }
  (w2.logged (Call.set_timings in_ vm) (up.set_timings w2.devs in_ vm), vm)

/-- The `htod_get_timings` of encoder-hdmitodvi.c: the descriptor written
behind the caller's pointer. -/
def htod_get_timings {V : Type} (w : HtodWorld V) : V :=
  w.ddata.vm

/-- The `htod_check_timings` of encoder-hdmitodvi.c.  Returns the result, the
new state and the caller's descriptor as the call leaves it behind the
pointer, which is handed on to the input's `check_timings`. -/
def htod_check_timings {V : Type} (up : UpstreamOps V) (w : HtodWorld V) (vm : V) :
    Int × HtodWorld V × V :=
  let in_ := w.ddata.in_
  let r := up.check_timings w.devs in_ vm
  (r.1, w.logged (Call.check_timings in_ vm) r.2, up.check_timings_fixup w.devs in_ vm)

/-! ## Example inputs and states -/

/-- An input that accepts every request.  Its connect links the consumer the
way `omapdss_output_set_device` does (`in->dst = dst`, `dst->src = in`), its
disconnect removes those two links. -/
def accepting_input (T : Type) : UpstreamOps T where
  connect devs in_ dst := (0, set_src (set_dst devs in_ (some dst)) dst (some in_))
  disconnect devs in_ dst := set_src (set_dst devs in_ none) dst none
  enable devs _ := (0, devs)
  disable devs _ := devs
  set_timings devs _ _ := devs
  check_timings devs _ _ := (0, devs)
  check_timings_fixup _ _ t := t
  set_data_lines devs _ _ := devs

/-- An input whose connect, enable and check_timings fail with `r` and touch
nothing. -/
def rejecting_input (T : Type) (r : Int) : UpstreamOps T where
  connect devs _ _ := (r, devs)
  disconnect devs _ _ := devs
  enable devs _ := (r, devs)
  disable devs _ := devs
  set_timings devs _ _ := devs
  check_timings devs _ _ := (r, devs)
  check_timings_fixup _ _ t := t
  set_data_lines devs _ _ := devs

/-- An input that accepts every request and whose `check_timings` rounds the
remaining fields of the descriptor down to an even number, the way a clock
that cannot be met exactly is replaced by the nearest one that can. -/
def rounding_input : UpstreamOps (omap_video_timings Nat) :=
  { accepting_input (omap_video_timings Nat) with
    check_timings_fixup := fun _ _ t => { t with rest := t.rest / 2 * 2 } }

/-- A device table with every device unattached and disabled. -/
def idle_devs {T : Type} (t : T) : Devs T :=
  fun _ => { src := none, dst := none, state := OMAP_DSS_DISPLAY_DISABLED, panel_timings := t }

/-- A zeroed timing descriptor with `n` as its remaining fields. -/
def sample_timings (n : Nat) : omap_video_timings Nat :=
  { data_pclk_edge := OMAPDSS_DRIVE_SIG_FALLING_EDGE
    sync_pclk_edge := OMAPDSS_DRIVE_SIG_FALLING_EDGE
    de_level := OMAPDSS_SIG_ACTIVE_LOW
    rest := n }

/-- A freshly probed TFP410 node: device 0, input 1, power-down pin 5,
24 data lines. -/
def tfp_idle : TfpWorld Nat :=
  { ddata := { dssdev := 0, in_ := 1, pd_gpio := 5, data_lines := 24,
               timings := sample_timings 0 }
    devs := idle_devs (sample_timings 0)
    calls := []
    warnings := 0 }

/-- A freshly probed HDMI-to-DVI node: device 0, input 1. -/
def htod_idle : HtodWorld Nat :=
  { ddata := { dssdev := 0, in_ := 1, vm := 0 }
    devs := idle_devs 0
    calls := []
    warnings := 0 }

/-- The `gpio_is_valid` test used in the examples: pins 0 to 511. -/
def sample_gpio_is_valid (n : Int) : Bool :=
  decide (0 ≤ n ∧ n < 512)

/-- The call `connect(dst)` followed immediately by `disconnect(dst)` on a
TFP410 node. -/
def tfp410_connect_disconnect {ρ : Type} (up : UpstreamOps (omap_video_timings ρ))
    (w : TfpWorld ρ) (dst : DevId) : TfpWorld ρ :=
  tfp410_disconnect up (tfp410_connect up w dst).2 dst

/-- The call `connect(dst)` followed immediately by `disconnect(dst)` on an
HDMI-to-DVI node. -/
def htod_connect_disconnect {V : Type} (up : UpstreamOps V) (w : HtodWorld V)
    (dst : DevId) : HtodWorld V :=
  htod_disconnect up (htod_connect up w dst).2 dst

/-- The device table on which `tfp410_enable` calls the input's `enable`: the
one left by the forwarded `set_timings` and, with `data_lines` set, by the
forwarded `set_data_lines`. -/
def tfp410_enable_devs {ρ : Type} (up : UpstreamOps (omap_video_timings ρ))
    (w : TfpWorld ρ) : Devs (omap_video_timings ρ) :=
  if w.ddata.data_lines ≠ 0 then
    up.set_data_lines (up.set_timings w.devs w.ddata.in_ w.ddata.timings) w.ddata.in_
      w.ddata.data_lines
  else
    up.set_timings w.devs w.ddata.in_ w.ddata.timings

/-- The log entries `tfp410_enable` makes before it calls the input's
`enable`: `set_timings` with the cached timing and, with `data_lines` set,
`set_data_lines`. -/
def tfp410_enable_prologue {ρ : Type} (w : TfpWorld ρ) : List (Call (omap_video_timings ρ)) :=
  if w.ddata.data_lines ≠ 0 then
    [Call.set_timings w.ddata.in_ w.ddata.timings,
      Call.set_data_lines w.ddata.in_ w.ddata.data_lines]
  else
    [Call.set_timings w.ddata.in_ w.ddata.timings]

/-- The TFP410 example node connected to device 2 and enabled. -/
def tfp_active : TfpWorld Nat :=
  (tfp410_enable sample_gpio_is_valid (accepting_input _)
    (tfp410_connect (accepting_input _) tfp_idle 2).2).2

/-- The HDMI-to-DVI example node connected to device 2 and enabled. -/
def htod_active : HtodWorld Nat :=
  (htod_enable (accepting_input _) (htod_connect (accepting_input _) htod_idle 2).2).2

/-! ## Sequences of calls -/

/-- An example input with given results: its connect returns `rc`, its enable
`re`, its check_timings `rk`.  An accepted connect links the consumer
(`in->dst = dst`, `dst->src = in`), also when the input already has a
consumer; disconnect removes those two links whatever the state of the
consumer; no other operation touches the device table or the descriptor. -/
def input_returning (T : Type) (rc re rk : Int) : UpstreamOps T where
  connect devs in_ dst :=
    if rc = 0 then (0, set_src (set_dst devs in_ (some dst)) dst (some in_)) else (rc, devs)
  disconnect devs in_ dst := set_src (set_dst devs in_ none) dst none
  enable devs _ := (re, devs)
  disable devs _ := devs
  set_timings devs _ _ := devs
  check_timings devs _ _ := (rk, devs)
  check_timings_fixup _ _ t := t
  set_data_lines devs _ _ := devs

/-- An example input that accepts every request but does not unlink a
consumer whose display state is still active: its disconnect leaves the table
as it is then. -/
def holding_input (T : Type) : UpstreamOps T :=
  { accepting_input T with
    disconnect := fun devs in_ dst =>
      if (devs dst).state = OMAP_DSS_DISPLAY_ACTIVE then devs
      else set_src (set_dst devs in_ none) dst none }

/-- One call on a node by the owner of the pipeline, with its argument. -/
inductive Op (T : Type) where
  | connect (dst : DevId)
  | disconnect (dst : DevId)
  | enable
  | disable
  | set_timings (timings : T)
  | get_timings
  | check_timings (timings : T)

/-- The state after one call on a TFP410 node; `s.2` is how the input behaves
during this call. -/
def tfp410_step {ρ : Type} (gpio_is_valid : Int → Bool) (w : TfpWorld ρ)
    (s : Op (omap_video_timings ρ) × UpstreamOps (omap_video_timings ρ)) : TfpWorld ρ :=
  match s.1 with
  | Op.connect dst => (tfp410_connect s.2 w dst).2
  | Op.disconnect dst => tfp410_disconnect s.2 w dst
  | Op.enable => (tfp410_enable gpio_is_valid s.2 w).2
  | Op.disable => tfp410_disable gpio_is_valid s.2 w
  | Op.set_timings t => (tfp410_set_timings s.2 w t).1
  | Op.get_timings => w
  | Op.check_timings t => (tfp410_check_timings s.2 w t).2.1

/-- The state after a sequence of calls on a TFP410 node, each with the
behaviour of the input during it. -/
def tfp410_run {ρ : Type} (gpio_is_valid : Int → Bool) (w : TfpWorld ρ)
    (steps : List (Op (omap_video_timings ρ) × UpstreamOps (omap_video_timings ρ))) :
    TfpWorld ρ :=
  steps.foldl (tfp410_step gpio_is_valid) w

/-- The state after one call on an HDMI-to-DVI node; `s.2` is how the input
behaves during this call. -/
def htod_step {V : Type} (w : HtodWorld V) (s : Op V × UpstreamOps V) : HtodWorld V :=
  match s.1 with
  | Op.connect dst => (htod_connect s.2 w dst).2
  | Op.disconnect dst => htod_disconnect s.2 w dst
  | Op.enable => (htod_enable s.2 w).2
  | Op.disable => htod_disable s.2 w
  | Op.set_timings t => (htod_set_timings s.2 w t).1
  | Op.get_timings => w
  | Op.check_timings t => (htod_check_timings s.2 w t).2.1

/-- The state after a sequence of calls on an HDMI-to-DVI node, each with the
behaviour of the input during it. -/
def htod_run {V : Type} (w : HtodWorld V) (steps : List (Op V × UpstreamOps V)) :
    HtodWorld V :=
  steps.foldl htod_step w

/-- The table `b` differs from `a` at most in the `src` link of the node, in
`dst` links of other devices and in fields that are no links: no other `src`
link, and neither the `dst` nor the display state of the node, is changed. -/
def input_frame {T : Type} (dssdev : DevId) (a b : Devs T) : Prop :=
  (∀ d, d ≠ dssdev → (b d).src = (a d).src) ∧ (b dssdev).dst = (a dssdev).dst ∧
    (b dssdev).state = (a dssdev).state

/-- The table `b` has every `src` link of `a` and the `dst` and display state
of the node as in `a`. -/
def links_kept {T : Type} (dssdev : DevId) (a b : Devs T) : Prop :=
  (∀ d, (b d).src = (a d).src) ∧ (b dssdev).dst = (a dssdev).dst ∧
    (b dssdev).state = (a dssdev).state

/-- The link contract of an input `in_` towards its consumer `dssdev`, on
every device table.  A refused connect changes no `src` link; an accepted
connect sets the `src` link of the consumer to another device; disconnect
clears the `src` link of the consumer, or leaves it when the consumer is
active; these two change no other `src` link, and no call changes the `dst`
or the display state of the consumer; the other operations change no `src`
link at all. -/
structure link_contract {T : Type} (up : UpstreamOps T) (in_ dssdev : DevId) : Prop where
  connect_frame : ∀ devs, input_frame dssdev devs (up.connect devs in_ dssdev).2
  connect_refused : ∀ devs, (up.connect devs in_ dssdev).1 ≠ 0 →
    ((up.connect devs in_ dssdev).2 dssdev).src = (devs dssdev).src
  connect_accepted : ∀ devs, (up.connect devs in_ dssdev).1 = 0 →
    ∃ x, x ≠ dssdev ∧ ((up.connect devs in_ dssdev).2 dssdev).src = some x
  disconnect_frame : ∀ devs, input_frame dssdev devs (up.disconnect devs in_ dssdev)
  disconnect_unlinks : ∀ devs, (up.disconnect devs in_ dssdev dssdev).src = none ∨
    ((devs dssdev).state = OMAP_DSS_DISPLAY_ACTIVE ∧
      (up.disconnect devs in_ dssdev dssdev).src = (devs dssdev).src)
  enable_keeps : ∀ devs, links_kept dssdev devs (up.enable devs in_).2
  disable_keeps : ∀ devs, links_kept dssdev devs (up.disable devs in_)
  set_timings_keeps : ∀ devs t, links_kept dssdev devs (up.set_timings devs in_ t)
  set_data_lines_keeps : ∀ devs n, links_kept dssdev devs (up.set_data_lines devs in_ n)
  check_timings_keeps : ∀ devs t, links_kept dssdev devs (up.check_timings devs in_ t).2

/-- The caller keeps the order the TFP410 driver does not check: along the
sequence, disconnect is never called while the display state is active. -/
def tfp410_in_order {ρ : Type} (gpio_is_valid : Int → Bool) (w : TfpWorld ρ) :
    List (Op (omap_video_timings ρ) × UpstreamOps (omap_video_timings ρ)) → Bool
  | [] => true
  | s :: steps =>
    (match s.1 with
      | Op.disconnect _ => !omapdss_device_is_enabled (w.devs w.ddata.dssdev)
      | _ => true) &&
    tfp410_in_order gpio_is_valid (tfp410_step gpio_is_valid w s) steps

/-- The caller keeps the order the HDMI-to-DVI driver does not check: along
the sequence, disconnect is never called while the display state is active
and enable is never called while the node is not connected. -/
def htod_in_order {V : Type} (w : HtodWorld V) : List (Op V × UpstreamOps V) → Bool
  | [] => true
  | s :: steps =>
    (match s.1 with
      | Op.disconnect _ => !omapdss_device_is_enabled (w.devs w.ddata.dssdev)
      | Op.enable => omapdss_device_is_connected (w.devs w.ddata.dssdev)
      | _ => true) &&
    htod_in_order (htod_step w s) steps

/-! ## Bring-up: tfp410_i2c_probe -/

/-- The register `TFP410_VEN_ID_L`. -/
def TFP410_VEN_ID_L : Nat := 0x00

/-- The register `TFP410_CTL_1_MODE`. -/
def TFP410_CTL_1_MODE : Nat := 0x08

/-- The `MAX_ERRNO` of `err.h`. -/
def MAX_ERRNO : Int := 4095

/-- Modelled from the spec: the `IS_ERR` test of `err.h`, which is not among
the sources, on a pointer read as a signed `long`: the bus session failed to
open when the pointer is one of the error values `-MAX_ERRNO .. -1`. -/
def IS_ERR (ptr : Int) : Bool :=
  decide (-MAX_ERRNO ≤ ptr ∧ ptr < 0)

/-- Modelled from the spec: the `PTR_ERR` of `err.h`, the error value a
pointer stands for. -/
def PTR_ERR (ptr : Int) : Int := ptr

/-- What the register bus answers to the three calls of the probe: the
pointer `devm_regmap_init_i2c` returns (read as a signed `long`), the result
of `regmap_bulk_read` with the four bytes found in `chip_id` after it, and the
result of `regmap_update_bits`. -/
structure i2c_client where
  devm_regmap_init_i2c : Int
  regmap_bulk_read : Nat → Nat → Int × (Fin 4 → Nat)
  regmap_update_bits : Nat → Nat → Nat → Int

/-- One call on the register bus. -/
inductive BusCall where
  | devm_regmap_init_i2c
  | regmap_bulk_read (reg : Nat) (count : Nat)
  | regmap_update_bits (reg : Nat) (mask : Nat) (val : Nat)
  deriving DecidableEq

/-- The four identification bytes `tfp410_i2c_probe` accepts. -/
def tfp410_signature : Fin 4 → Nat := ![0x4c, 0x01, 0x10, 0x04]

/-- The `tfp410_i2c_probe` of encoder-tfp410.c: its result and the calls it
made on the register bus, in program order. -/
def tfp410_i2c_probe (client : i2c_client) : Int × List BusCall :=
  let regmap := client.devm_regmap_init_i2c
  let log0 := [BusCall.devm_regmap_init_i2c]
  if IS_ERR regmap then
    (PTR_ERR regmap, log0)
  else
    let rd := client.regmap_bulk_read TFP410_VEN_ID_L 4
    let chip_id := rd.2
    let log1 := log0 ++ [BusCall.regmap_bulk_read TFP410_VEN_ID_L 4]
    if rd.1 < 0 then
      (rd.1, log1)
    else if !(chip_id 0 == 0x4c && chip_id 1 == 0x01 &&
        chip_id 2 == 0x10 && chip_id 3 == 0x04) then
      (-ENODEV, log1)
    else
      let r := client.regmap_update_bits TFP410_CTL_1_MODE 0x7f 0x37
      (r, log1 ++ [BusCall.regmap_update_bits TFP410_CTL_1_MODE 0x7f 0x37])

/-- One step of `tfp410_init`: a driver registration or an error message. -/
inductive InitCall where
  | i2c_add_driver
  | platform_driver_register
  | pr_err (err : Int)
  deriving DecidableEq

/-- The `tfp410_init` of encoder-tfp410.c, given what the two registrations
return: its result and the steps it made, in program order. -/
def tfp410_init (i2c_add_driver platform_driver_register : Int) : Int × List InitCall :=
  let err := i2c_add_driver
  let log0 := [InitCall.i2c_add_driver]
  let log1 := if err ≠ 0 then log0 ++ [InitCall.pr_err err] else log0
  let err := platform_driver_register
  let log2 := log1 ++ [InitCall.platform_driver_register]
  let log3 := if err ≠ 0 then log2 ++ [InitCall.pr_err err] else log2
  (0, log3)

/-- A chip that answers with the TFP410 signature and accepts the update. -/
def sample_chip : i2c_client :=
  { devm_regmap_init_i2c := 4096
    regmap_bulk_read := fun _ _ => (0, tfp410_signature)
    regmap_update_bits := fun _ _ _ => 0 }

/-- A chip that answers with another device identification. -/
def other_chip : i2c_client :=
  { devm_regmap_init_i2c := 4096
    regmap_bulk_read := fun _ _ => (0, ![0x4c, 0x01, 0x10, 0x05])
    regmap_update_bits := fun _ _ _ => 0 }

/-! ## Device-table lemmas -/

section table
variable {T : Type}

@[simp]
theorem set_src_src (devs : Devs T) (d e : DevId) (v : Option DevId) :
    (set_src devs d v e).src = if e = d then v else (devs e).src := by
  unfold set_src
  by_cases h : e = d
  · subst h; simp
  · simp [Function.update_noteq h, h]

@[simp]
theorem set_src_dst (devs : Devs T) (d e : DevId) (v : Option DevId) :
    (set_src devs d v e).dst = (devs e).dst := by
  unfold set_src
  by_cases h : e = d
  · subst h; simp
  · simp [Function.update_noteq h]

@[simp]
theorem set_src_state (devs : Devs T) (d e : DevId) (v : Option DevId) :
    (set_src devs d v e).state = (devs e).state := by
  unfold set_src
  by_cases h : e = d
  · subst h; simp
  · simp [Function.update_noteq h]

@[simp]
theorem set_dst_dst (devs : Devs T) (d e : DevId) (v : Option DevId) :
    (set_dst devs d v e).dst = if e = d then v else (devs e).dst := by
  unfold set_dst
  by_cases h : e = d
  · subst h; simp
  · simp [Function.update_noteq h, h]

@[simp]
theorem set_dst_src (devs : Devs T) (d e : DevId) (v : Option DevId) :
    (set_dst devs d v e).src = (devs e).src := by
  unfold set_dst
  by_cases h : e = d
  · subst h; simp
  · simp [Function.update_noteq h]

@[simp]
theorem set_dst_state (devs : Devs T) (d e : DevId) (v : Option DevId) :
    (set_dst devs d v e).state = (devs e).state := by
  unfold set_dst
  by_cases h : e = d
  · subst h; simp
  · simp [Function.update_noteq h]

@[simp]
theorem set_state_state (devs : Devs T) (d e : DevId) (s : omap_dss_display_state) :
    (set_state devs d s e).state = if e = d then s else (devs e).state := by
  unfold set_state
  by_cases h : e = d
  · subst h; simp
  · simp [Function.update_noteq h, h]

@[simp]
theorem set_state_src (devs : Devs T) (d e : DevId) (s : omap_dss_display_state) :
    (set_state devs d s e).src = (devs e).src := by
  unfold set_state
  by_cases h : e = d
  · subst h; simp
  · simp [Function.update_noteq h]

@[simp]
theorem set_state_dst (devs : Devs T) (d e : DevId) (s : omap_dss_display_state) :
    (set_state devs d s e).dst = (devs e).dst := by
  unfold set_state
  by_cases h : e = d
  · subst h; simp
  · simp [Function.update_noteq h]

@[simp]
theorem set_panel_timings_src (devs : Devs T) (d e : DevId) (t : T) :
    (set_panel_timings devs d t e).src = (devs e).src := by
  unfold set_panel_timings
  by_cases h : e = d
  · subst h; simp
  · simp [Function.update_noteq h]

@[simp]
theorem set_panel_timings_dst (devs : Devs T) (d e : DevId) (t : T) :
    (set_panel_timings devs d t e).dst = (devs e).dst := by
  unfold set_panel_timings
  by_cases h : e = d
  · subst h; simp
  · simp [Function.update_noteq h]

@[simp]
theorem set_panel_timings_state (devs : Devs T) (d e : DevId) (t : T) :
    (set_panel_timings devs d t e).state = (devs e).state := by
  unfold set_panel_timings
  by_cases h : e = d
  · subst h; simp
  · simp [Function.update_noteq h]

end table

/-! ## connect -/

/-- C1: in both drivers, on a node that is not yet connected and for every
downstream device, when the input's connect returns 0 then connect returns 0,
the log has grown by exactly one connect call on the input whose consumer is
this node, and afterwards the node's `dst` is the downstream device and the
downstream device's `src` is the node. -/
theorem connect_success {ρ V : Type}
    (upT : UpstreamOps (omap_video_timings ρ)) (wT : TfpWorld ρ) (dT : DevId)
    (upH : UpstreamOps V) (wH : HtodWorld V) (dH : DevId)
    (hnc : omapdss_device_is_connected (wT.devs wT.ddata.dssdev) = false)
    (hT : (upT.connect wT.devs wT.ddata.in_ wT.ddata.dssdev).1 = 0)
    (hH : (upH.connect wH.devs wH.ddata.in_ wH.ddata.dssdev).1 = 0) :
    ((tfp410_connect upT wT dT).1 = 0 ∧
      (tfp410_connect upT wT dT).2.calls
        = wT.calls ++ [Call.connect wT.ddata.in_ wT.ddata.dssdev] ∧
      ((tfp410_connect upT wT dT).2.devs wT.ddata.dssdev).dst = some dT ∧
      ((tfp410_connect upT wT dT).2.devs dT).src = some wT.ddata.dssdev) ∧
    ((htod_connect upH wH dH).1 = 0 ∧
      (htod_connect upH wH dH).2.calls
        = wH.calls ++ [Call.connect wH.ddata.in_ wH.ddata.dssdev] ∧
      ((htod_connect upH wH dH).2.devs wH.ddata.dssdev).dst = some dH ∧
      ((htod_connect upH wH dH).2.devs dH).src = some wH.ddata.dssdev) := by
  constructor
  · simp [tfp410_connect, hnc, hT, World.logged]
  · simp [htod_connect, hH, World.logged]

/-- Witness of C1 on the idle example nodes with an accepting input. -/
theorem connect_success_witness :
    ((tfp410_connect (accepting_input _) tfp_idle 2).1 = 0 ∧
      (tfp410_connect (accepting_input _) tfp_idle 2).2.calls = [] ++ [Call.connect 1 0] ∧
      ((tfp410_connect (accepting_input _) tfp_idle 2).2.devs 0).dst = some 2 ∧
      ((tfp410_connect (accepting_input _) tfp_idle 2).2.devs 2).src = some 0) ∧
    ((htod_connect (accepting_input _) htod_idle 2).1 = 0 ∧
      (htod_connect (accepting_input _) htod_idle 2).2.calls = [] ++ [Call.connect 1 0] ∧
      ((htod_connect (accepting_input _) htod_idle 2).2.devs 0).dst = some 2 ∧
      ((htod_connect (accepting_input _) htod_idle 2).2.devs 2).src = some 0) :=
  connect_success (accepting_input _) tfp_idle 2 (accepting_input _) htod_idle 2
    (by decide) (by decide) (by decide)

/-- C2: in both drivers and in every state, when the connect is forwarded
(hdmitodvi forwards it in every state) and the input's connect returns a
non-zero error `r`, connect returns exactly `r` and writes nothing itself: the driver data (cached timing included) is as
before, the device table is exactly what the input's call left, so `dst`,
`src` and `state` of every device whose record the failing call left alone
(the node, the downstream device) are as before the call, and no `WARN_ON`
fires. -/
theorem connect_upstream_error {ρ V : Type}
    (upT : UpstreamOps (omap_video_timings ρ)) (wT : TfpWorld ρ) (dT : DevId)
    (upH : UpstreamOps V) (wH : HtodWorld V) (dH : DevId)
    (hfT : (tfp410_connect upT wT dT).2.calls
      = wT.calls ++ [Call.connect wT.ddata.in_ wT.ddata.dssdev])
    (hT : (upT.connect wT.devs wT.ddata.in_ wT.ddata.dssdev).1 ≠ 0)
    (hH : (upH.connect wH.devs wH.ddata.in_ wH.ddata.dssdev).1 ≠ 0) :
    ((tfp410_connect upT wT dT).1 = (upT.connect wT.devs wT.ddata.in_ wT.ddata.dssdev).1 ∧
      (tfp410_connect upT wT dT).2.ddata = wT.ddata ∧
      (tfp410_connect upT wT dT).2.devs
        = (upT.connect wT.devs wT.ddata.in_ wT.ddata.dssdev).2 ∧
      (∀ d, (upT.connect wT.devs wT.ddata.in_ wT.ddata.dssdev).2 d = wT.devs d →
        (tfp410_connect upT wT dT).2.devs d = wT.devs d) ∧
      (tfp410_connect upT wT dT).2.warnings = wT.warnings) ∧
    ((htod_connect upH wH dH).1 = (upH.connect wH.devs wH.ddata.in_ wH.ddata.dssdev).1 ∧
      (htod_connect upH wH dH).2.ddata = wH.ddata ∧
      (htod_connect upH wH dH).2.devs
        = (upH.connect wH.devs wH.ddata.in_ wH.ddata.dssdev).2 ∧
      (∀ d, (upH.connect wH.devs wH.ddata.in_ wH.ddata.dssdev).2 d = wH.devs d →
        (htod_connect upH wH dH).2.devs d = wH.devs d) ∧
      (htod_connect upH wH dH).2.warnings = wH.warnings) := by
  have hnc : omapdss_device_is_connected (wT.devs wT.ddata.dssdev) = false := by
    cases hc : omapdss_device_is_connected (wT.devs wT.ddata.dssdev)
    · rfl
    · simp [tfp410_connect, hc] at hfT
  clear hfT
  constructor
  · simp [tfp410_connect, hnc, hT, World.logged]
  · simp [htod_connect, hH, World.logged]

/-- Witness of C2 on the idle example nodes with an input failing with -22. -/
theorem connect_upstream_error_witness :
    ((tfp410_connect (rejecting_input _ (-22)) tfp_idle 2).1 = -22 ∧
      ((tfp410_connect (rejecting_input _ (-22)) tfp_idle 2).2.devs 0).dst = none ∧
      ((tfp410_connect (rejecting_input _ (-22)) tfp_idle 2).2.devs 2).src = none) ∧
    ((htod_connect (rejecting_input _ (-22)) htod_idle 2).1 = -22 ∧
      ((htod_connect (rejecting_input _ (-22)) htod_idle 2).2.devs 0).dst = none ∧
      ((htod_connect (rejecting_input _ (-22)) htod_idle 2).2.devs 2).src = none) :=
  have h := connect_upstream_error (rejecting_input _ (-22)) tfp_idle 2
    (rejecting_input _ (-22)) htod_idle 2 (by decide) (by decide) (by decide)
  ⟨⟨h.1.1, by rw [h.1.2.2.2.1 0 rfl]; rfl, by rw [h.1.2.2.2.1 2 rfl]; rfl⟩,
   ⟨h.2.1, by rw [h.2.2.2.2.1 0 rfl]; rfl, by rw [h.2.2.2.2.1 2 rfl]; rfl⟩⟩

/-- C3: `tfp410_connect` on a node that is already connected returns `-EBUSY`
for every downstream argument and leaves the whole state as it was: nothing
is forwarded to the input, and the node's `dst`, the `src` of the device it is
attached to and the `src` of the argument are untouched. -/
theorem tfp410_connect_busy {ρ : Type}
    (up : UpstreamOps (omap_video_timings ρ)) (w : TfpWorld ρ) (dst : DevId)
    (hc : omapdss_device_is_connected (w.devs w.ddata.dssdev) = true) :
    (tfp410_connect up w dst).1 = -16 ∧ (tfp410_connect up w dst).1 = -EBUSY ∧
      (tfp410_connect up w dst).2 = w := by
  simp [tfp410_connect, hc, EBUSY]

/-- Witness of C3: a second connect on the node just connected to device 2. -/
theorem tfp410_connect_busy_witness :
    (tfp410_connect (accepting_input _) (tfp410_connect (accepting_input _) tfp_idle 2).2 3).1
        = -16 ∧
      (tfp410_connect (accepting_input _) (tfp410_connect (accepting_input _) tfp_idle 2).2 3).1
        = -EBUSY ∧
      (tfp410_connect (accepting_input _) (tfp410_connect (accepting_input _) tfp_idle 2).2 3).2
        = (tfp410_connect (accepting_input _) tfp_idle 2).2 :=
  tfp410_connect_busy (accepting_input _) (tfp410_connect (accepting_input _) tfp_idle 2).2 3
    (by decide)

/-- C4, as written, fails: the HDMI-to-DVI node connected to device 2 is handed
a second connect for device 3 while the input accepts; `htod_connect` returns
0, the node's `dst` becomes device 3 and device 3 gets the node as `src`. -/
theorem htod_connect_second_accepted :
    ((htod_connect (accepting_input _) htod_idle 2).1 = 0 ∧
      ((htod_connect (accepting_input _) htod_idle 2).2.devs 0).dst = some 2) ∧
    (htod_connect (accepting_input _) (htod_connect (accepting_input _) htod_idle 2).2 3).1
        = 0 ∧
    ((htod_connect (accepting_input _)
        (htod_connect (accepting_input _) htod_idle 2).2 3).2.devs 0).dst = some 3 ∧
    ((htod_connect (accepting_input _)
        (htod_connect (accepting_input _) htod_idle 2).2 3).2.devs 3).src = some 0 := by
  decide

/-- C4, amended: `htod_connect` has no check of its own on a node that already
has a downstream `d1`; it forwards the connect to the input once.  When the
input fails with `r`, it returns `r` and writes nothing, so the node's `dst`
is still `d1` and the `src` of `d2` is as before wherever the input's call left
them; when the input accepts, it returns 0 and rebinds: the node's `dst`
becomes `d2` and the `src` of `d2` becomes the node. -/
theorem htod_connect_on_connected {V : Type}
    (up : UpstreamOps V) (w : HtodWorld V) (d1 d2 : DevId)
    (h1 : (w.devs w.ddata.dssdev).dst = some d1) :
    (htod_connect up w d2).2.calls = w.calls ++ [Call.connect w.ddata.in_ w.ddata.dssdev] ∧
    ((up.connect w.devs w.ddata.in_ w.ddata.dssdev).1 ≠ 0 →
      (htod_connect up w d2).1 = (up.connect w.devs w.ddata.in_ w.ddata.dssdev).1 ∧
      (htod_connect up w d2).2.ddata = w.ddata ∧
      (htod_connect up w d2).2.devs = (up.connect w.devs w.ddata.in_ w.ddata.dssdev).2 ∧
      ((up.connect w.devs w.ddata.in_ w.ddata.dssdev).2 w.ddata.dssdev = w.devs w.ddata.dssdev →
        ((htod_connect up w d2).2.devs w.ddata.dssdev).dst = some d1) ∧
      ((up.connect w.devs w.ddata.in_ w.ddata.dssdev).2 d2 = w.devs d2 →
        ((htod_connect up w d2).2.devs d2).src = (w.devs d2).src)) ∧
    ((up.connect w.devs w.ddata.in_ w.ddata.dssdev).1 = 0 →
      (htod_connect up w d2).1 = 0 ∧
      ((htod_connect up w d2).2.devs w.ddata.dssdev).dst = some d2 ∧
      ((htod_connect up w d2).2.devs d2).src = some w.ddata.dssdev) := by
  refine ⟨?_, ?_, ?_⟩
  · by_cases h : (up.connect w.devs w.ddata.in_ w.ddata.dssdev).1 = 0 <;>
      simp [htod_connect, h, World.logged]
  · intro h
    have e : htod_connect up w d2
        = ((up.connect w.devs w.ddata.in_ w.ddata.dssdev).1,
            w.logged (Call.connect w.ddata.in_ w.ddata.dssdev)
              (up.connect w.devs w.ddata.in_ w.ddata.dssdev).2) := by
      simp [htod_connect, h]
    rw [e]
    refine ⟨rfl, rfl, rfl, ?_, ?_⟩
    · intro hk
      simp [World.logged, hk, h1]
    · intro hk
      simp [World.logged, hk]
  · intro h
    simp [htod_connect, h, World.logged]

/-- Witness of amended C4: the node connected to device 2, a second connect
for device 3, once with a failing and once with an accepting input. -/
theorem htod_connect_on_connected_witness :
    ((htod_connect (rejecting_input _ (-22))
        (htod_connect (accepting_input _) htod_idle 2).2 3).1 = -22 ∧
      ((htod_connect (rejecting_input _ (-22))
        (htod_connect (accepting_input _) htod_idle 2).2 3).2.devs 0).dst = some 2) ∧
    ((htod_connect (accepting_input _)
        (htod_connect (accepting_input _) htod_idle 2).2 3).1 = 0 ∧
      ((htod_connect (accepting_input _)
        (htod_connect (accepting_input _) htod_idle 2).2 3).2.devs 0).dst = some 3) :=
  have hr := htod_connect_on_connected (rejecting_input _ (-22))
    (htod_connect (accepting_input _) htod_idle 2).2 2 3 (by decide)
  have ha := htod_connect_on_connected (accepting_input Nat)
    (htod_connect (accepting_input _) htod_idle 2).2 2 3 (by decide)
  ⟨⟨(hr.2.1 (by decide)).1, (hr.2.1 (by decide)).2.2.2.1 rfl⟩,
   ⟨(ha.2.2 (by decide)).1, (ha.2.2 (by decide)).2.1⟩⟩

/-! ## disconnect -/

/-- C5: in both drivers, disconnect with a device that is not the node's
current `dst` fires a `WARN_ON` and does nothing else: the device table (the
node's `dst`, every `src` link, the display state) and the driver data are
untouched and nothing is forwarded to the input. -/
theorem disconnect_mismatch {ρ V : Type}
    (upT : UpstreamOps (omap_video_timings ρ)) (wT : TfpWorld ρ) (xT : DevId)
    (upH : UpstreamOps V) (wH : HtodWorld V) (xH : DevId)
    (hT : (wT.devs wT.ddata.dssdev).dst ≠ some xT)
    (hH : (wH.devs wH.ddata.dssdev).dst ≠ some xH) :
    ((tfp410_disconnect upT wT xT).warnings = wT.warnings + 1 ∧
      (tfp410_disconnect upT wT xT).devs = wT.devs ∧
      (tfp410_disconnect upT wT xT).ddata = wT.ddata ∧
      (tfp410_disconnect upT wT xT).calls = wT.calls) ∧
    ((htod_disconnect upH wH xH).warnings = wH.warnings + 1 ∧
      (htod_disconnect upH wH xH).devs = wH.devs ∧
      (htod_disconnect upH wH xH).ddata = wH.ddata ∧
      (htod_disconnect upH wH xH).calls = wH.calls) := by
  have hT2 : ¬ (some xT = (wT.devs wT.ddata.dssdev).dst) := fun h => hT h.symm
  have hH2 : ¬ (some xH = (wH.devs wH.ddata.dssdev).dst) := fun h => hH h.symm
  constructor
  · cases hc : omapdss_device_is_connected (wT.devs wT.ddata.dssdev) <;>
      simp [tfp410_disconnect, World.WARN_ON, hc, hT2]
  · simp [htod_disconnect, World.WARN_ON, hH2]

/-- Witness of C5: the nodes connected to device 2 are asked to disconnect
device 3. -/
theorem disconnect_mismatch_witness :
    ((tfp410_disconnect (accepting_input _)
        (tfp410_connect (accepting_input _) tfp_idle 2).2 3).warnings = 0 + 1 ∧
      ((tfp410_disconnect (accepting_input _)
        (tfp410_connect (accepting_input _) tfp_idle 2).2 3).devs 0).dst = some 2 ∧
      (tfp410_disconnect (accepting_input _)
        (tfp410_connect (accepting_input _) tfp_idle 2).2 3).calls = [Call.connect 1 0]) ∧
    ((htod_disconnect (accepting_input _)
        (htod_connect (accepting_input _) htod_idle 2).2 3).warnings = 0 + 1 ∧
      ((htod_disconnect (accepting_input _)
        (htod_connect (accepting_input _) htod_idle 2).2 3).devs 0).dst = some 2 ∧
      (htod_disconnect (accepting_input _)
        (htod_connect (accepting_input _) htod_idle 2).2 3).calls = [Call.connect 1 0]) :=
  have h := disconnect_mismatch (accepting_input _)
    (tfp410_connect (accepting_input _) tfp_idle 2).2 3 (accepting_input _)
    (htod_connect (accepting_input _) htod_idle 2).2 3 (by decide) (by decide)
  ⟨⟨h.1.1, by rw [h.1.2.1]; decide, by rw [h.1.2.2.2]; decide⟩,
   ⟨h.2.1, by rw [h.2.2.1]; decide, by rw [h.2.2.2.2]; decide⟩⟩

/-- C6: round trip in both drivers.  The node starts not connected; the input
accepts the connect and sets the node's own `src` link; its disconnect clears
that link again and leaves the node's `dst` and the other devices' `src`
alone.  Then `connect(d)` followed immediately by `disconnect(d)` leaves the
node's `dst` and the `src` of `d` cleared, the node is not connected, no
`WARN_ON` fired, and the input received exactly connect(node) and then
disconnect(node). -/
theorem connect_disconnect_round_trip {ρ V : Type}
    (upT : UpstreamOps (omap_video_timings ρ)) (wT : TfpWorld ρ) (dT : DevId)
    (upH : UpstreamOps V) (wH : HtodWorld V) (dH : DevId)
    (hnc : omapdss_device_is_connected (wT.devs wT.ddata.dssdev) = false)
    (hT0 : (upT.connect wT.devs wT.ddata.in_ wT.ddata.dssdev).1 = 0)
    (hTs : omapdss_device_is_connected
      ((upT.connect wT.devs wT.ddata.in_ wT.ddata.dssdev).2 wT.ddata.dssdev) = true)
    (hTc : ∀ devs, (upT.disconnect devs wT.ddata.in_ wT.ddata.dssdev wT.ddata.dssdev).src = none)
    (hTk : ∀ devs, (upT.disconnect devs wT.ddata.in_ wT.ddata.dssdev wT.ddata.dssdev).dst
      = (devs wT.ddata.dssdev).dst)
    (hTo : ∀ devs d, d ≠ wT.ddata.dssdev →
      (upT.disconnect devs wT.ddata.in_ wT.ddata.dssdev d).src = (devs d).src)
    (hH0 : (upH.connect wH.devs wH.ddata.in_ wH.ddata.dssdev).1 = 0)
    (hHc : ∀ devs, (upH.disconnect devs wH.ddata.in_ wH.ddata.dssdev wH.ddata.dssdev).src = none)
    (hHk : ∀ devs, (upH.disconnect devs wH.ddata.in_ wH.ddata.dssdev wH.ddata.dssdev).dst
      = (devs wH.ddata.dssdev).dst)
    (hHo : ∀ devs d, d ≠ wH.ddata.dssdev →
      (upH.disconnect devs wH.ddata.in_ wH.ddata.dssdev d).src = (devs d).src) :
    (((tfp410_connect_disconnect upT wT dT).devs wT.ddata.dssdev).dst = none ∧
      ((tfp410_connect_disconnect upT wT dT).devs dT).src = none ∧
      omapdss_device_is_connected
        ((tfp410_connect_disconnect upT wT dT).devs wT.ddata.dssdev) = false ∧
      (tfp410_connect_disconnect upT wT dT).calls
        = wT.calls ++ [Call.connect wT.ddata.in_ wT.ddata.dssdev,
            Call.disconnect wT.ddata.in_ wT.ddata.dssdev] ∧
      (tfp410_connect_disconnect upT wT dT).warnings = wT.warnings) ∧
    (((htod_connect_disconnect upH wH dH).devs wH.ddata.dssdev).dst = none ∧
      ((htod_connect_disconnect upH wH dH).devs dH).src = none ∧
      omapdss_device_is_connected
        ((htod_connect_disconnect upH wH dH).devs wH.ddata.dssdev) = false ∧
      (htod_connect_disconnect upH wH dH).calls
        = wH.calls ++ [Call.connect wH.ddata.in_ wH.ddata.dssdev,
            Call.disconnect wH.ddata.in_ wH.ddata.dssdev] ∧
      (htod_connect_disconnect upH wH dH).warnings = wH.warnings) := by
  constructor
  · have hconn : omapdss_device_is_connected
        (set_dst (set_src (upT.connect wT.devs wT.ddata.in_ wT.ddata.dssdev).2 dT
          (some wT.ddata.dssdev)) wT.ddata.dssdev (some dT) wT.ddata.dssdev) = true := by
      unfold omapdss_device_is_connected at hTs ⊢
      by_cases hd : wT.ddata.dssdev = dT
      · simp [hd]
      · simp [hd, hTs]
    have e : tfp410_connect_disconnect upT wT dT
        = { wT with
            devs := upT.disconnect
              (set_dst (set_src (set_dst (set_src
                (upT.connect wT.devs wT.ddata.in_ wT.ddata.dssdev).2 dT
                  (some wT.ddata.dssdev)) wT.ddata.dssdev (some dT)) dT none)
                  wT.ddata.dssdev none) wT.ddata.in_ wT.ddata.dssdev
            calls := wT.calls ++ [Call.connect wT.ddata.in_ wT.ddata.dssdev,
              Call.disconnect wT.ddata.in_ wT.ddata.dssdev] } := by
      simp [tfp410_connect_disconnect, tfp410_connect, tfp410_disconnect, hnc, hT0,
        World.logged, World.WARN_ON, hconn]
    rw [e]
    refine ⟨?_, ?_, ?_, rfl, rfl⟩
    · simp [hTk]
    · by_cases hd : dT = wT.ddata.dssdev
      · rw [hd]; simp [hTc]
      · simp [hTo _ _ hd]
    · simp [omapdss_device_is_connected, hTc]
  · have e : htod_connect_disconnect upH wH dH
        = { wH with
            devs := upH.disconnect
              (set_dst (set_src (set_dst (set_src
                (upH.connect wH.devs wH.ddata.in_ wH.ddata.dssdev).2 dH
                  (some wH.ddata.dssdev)) wH.ddata.dssdev (some dH)) dH none)
                  wH.ddata.dssdev none) wH.ddata.in_ wH.ddata.dssdev
            calls := wH.calls ++ [Call.connect wH.ddata.in_ wH.ddata.dssdev,
              Call.disconnect wH.ddata.in_ wH.ddata.dssdev] } := by
      simp [htod_connect_disconnect, htod_connect, htod_disconnect, hH0,
        World.logged, World.WARN_ON]
    rw [e]
    refine ⟨?_, ?_, ?_, rfl, rfl⟩
    · simp [hHk]
    · by_cases hd : dH = wH.ddata.dssdev
      · rw [hd]; simp [hHc]
      · simp [hHo _ _ hd]
    · simp [omapdss_device_is_connected, hHc]

/-- Witness of C6 on the idle example nodes, device 2 and the accepting
input. -/
theorem connect_disconnect_round_trip_witness :
    (((tfp410_connect_disconnect (accepting_input _) tfp_idle 2).devs 0).dst = none ∧
      ((tfp410_connect_disconnect (accepting_input _) tfp_idle 2).devs 2).src = none ∧
      omapdss_device_is_connected
        ((tfp410_connect_disconnect (accepting_input _) tfp_idle 2).devs 0) = false ∧
      (tfp410_connect_disconnect (accepting_input _) tfp_idle 2).calls
        = [] ++ [Call.connect 1 0, Call.disconnect 1 0] ∧
      (tfp410_connect_disconnect (accepting_input _) tfp_idle 2).warnings = 0) ∧
    (((htod_connect_disconnect (accepting_input _) htod_idle 2).devs 0).dst = none ∧
      ((htod_connect_disconnect (accepting_input _) htod_idle 2).devs 2).src = none ∧
      omapdss_device_is_connected
        ((htod_connect_disconnect (accepting_input _) htod_idle 2).devs 0) = false ∧
      (htod_connect_disconnect (accepting_input _) htod_idle 2).calls
        = [] ++ [Call.connect 1 0, Call.disconnect 1 0] ∧
      (htod_connect_disconnect (accepting_input _) htod_idle 2).warnings = 0) :=
  connect_disconnect_round_trip (accepting_input _) tfp_idle 2 (accepting_input _) htod_idle 2
    (by decide) (by decide) (by decide)
    (by intro devs; simp [accepting_input, tfp_idle])
    (by intro devs; simp [accepting_input, tfp_idle])
    (by intro devs d hd; simp [accepting_input, tfp_idle] at hd ⊢; simp [hd])
    (by decide)
    (by intro devs; simp [accepting_input, htod_idle])
    (by intro devs; simp [accepting_input, htod_idle])
    (by intro devs d hd; simp [accepting_input, htod_idle] at hd ⊢; simp [hd])

/-! ## timings -/

/-- C7: in every state and for every descriptor, `set_timings` followed by
`get_timings` returns the normalized descriptor, and that same descriptor is
the one forwarded to the input's `set_timings`.  In tfp410 the normalized
descriptor has `data_pclk_edge` and `sync_pclk_edge` set to rising edge,
`de_level` set to active high and every other field as handed in; in
hdmitodvi it is the descriptor handed in. -/
theorem set_timings_get_timings {ρ V : Type}
    (upT : UpstreamOps (omap_video_timings ρ)) (wT : TfpWorld ρ)
    (t : omap_video_timings ρ) (upH : UpstreamOps V) (wH : HtodWorld V) (vm : V) :
    (tfp410_get_timings (tfp410_set_timings upT wT t).1 = tfp410_fix_timings t ∧
      tfp410_fix_timings t
        = { data_pclk_edge := OMAPDSS_DRIVE_SIG_RISING_EDGE
            sync_pclk_edge := OMAPDSS_DRIVE_SIG_RISING_EDGE
            de_level := OMAPDSS_SIG_ACTIVE_HIGH
            rest := t.rest } ∧
      (tfp410_set_timings upT wT t).1.calls
        = wT.calls ++ [Call.set_timings wT.ddata.in_ (tfp410_fix_timings t)]) ∧
    (htod_get_timings (htod_set_timings upH wH vm).1 = vm ∧
      (htod_set_timings upH wH vm).1.calls = wH.calls ++ [Call.set_timings wH.ddata.in_ vm]) :=
  ⟨⟨rfl, rfl, rfl⟩, rfl, rfl⟩

/-! ## enable -/

/-- After a `tfp410_enable` that returned 0 the node's display state is
active. -/
theorem tfp410_enable_ok_active {ρ : Type} (gv : Int → Bool)
    (up : UpstreamOps (omap_video_timings ρ)) (w : TfpWorld ρ)
    (h : (tfp410_enable gv up w).1 = 0) :
    (tfp410_enable gv up w).2.ddata = w.ddata ∧
      ((tfp410_enable gv up w).2.devs w.ddata.dssdev).state = OMAP_DSS_DISPLAY_ACTIVE := by
  unfold tfp410_enable at h ⊢
  simp only [World.logged] at h ⊢
  split_ifs at h ⊢ <;> simp_all [ENODEV, omapdss_device_is_enabled]

/-- After an `htod_enable` that returned 0 the node's display state is
active. -/
theorem htod_enable_ok_active {V : Type} (up : UpstreamOps V) (w : HtodWorld V)
    (h : (htod_enable up w).1 = 0) :
    (htod_enable up w).2.ddata = w.ddata ∧
      ((htod_enable up w).2.devs w.ddata.dssdev).state = OMAP_DSS_DISPLAY_ACTIVE := by
  unfold htod_enable at h ⊢
  by_cases ha : (w.devs w.ddata.dssdev).state = OMAP_DSS_DISPLAY_ACTIVE
  · simp [ha]
  · by_cases hr : (up.enable (up.set_timings w.devs w.ddata.in_ w.ddata.vm) w.ddata.in_).1 = 0
    · simp [ha, hr, World.logged]
    · simp [ha, hr, World.logged] at h

/-- C8: enable is idempotent in both drivers.  On a node on which enable has
just returned 0 (and, for tfp410, which is still connected) the display state
is active and a second enable returns 0 and leaves the whole state, log
included, as it was: no `set_timings`, `set_data_lines` or `enable` is
forwarded and the power-down pin is not written. -/
theorem enable_idempotent {ρ V : Type} (gv gv2 : Int → Bool)
    (upT upT2 : UpstreamOps (omap_video_timings ρ)) (wT : TfpWorld ρ)
    (upH upH2 : UpstreamOps V) (wH : HtodWorld V)
    (hT : (tfp410_enable gv upT wT).1 = 0)
    (hTc : omapdss_device_is_connected
      ((tfp410_enable gv upT wT).2.devs wT.ddata.dssdev) = true)
    (hH : (htod_enable upH wH).1 = 0) :
    (((tfp410_enable gv upT wT).2.devs wT.ddata.dssdev).state = OMAP_DSS_DISPLAY_ACTIVE ∧
      tfp410_enable gv2 upT2 (tfp410_enable gv upT wT).2 = (0, (tfp410_enable gv upT wT).2)) ∧
    (((htod_enable upH wH).2.devs wH.ddata.dssdev).state = OMAP_DSS_DISPLAY_ACTIVE ∧
      htod_enable upH2 (htod_enable upH wH).2 = (0, (htod_enable upH wH).2)) := by
  obtain ⟨hdT, hsT⟩ := tfp410_enable_ok_active gv upT wT hT
  obtain ⟨hdH, hsH⟩ := htod_enable_ok_active upH wH hH
  refine ⟨⟨hsT, ?_⟩, hsH, ?_⟩
  · generalize tfp410_enable gv upT wT = out at hdT hsT hTc
    rw [← hdT] at hsT hTc
    simp [tfp410_enable, hTc, omapdss_device_is_enabled, hsT]
  · generalize htod_enable upH wH = out at hdH hsH
    rw [← hdH] at hsH
    simp [htod_enable, hsH]

/-- Witness of C8: the example nodes connected to device 2 and enabled once
through the accepting input. -/
theorem enable_idempotent_witness :
    (((tfp410_enable sample_gpio_is_valid (accepting_input _)
          (tfp410_connect (accepting_input _) tfp_idle 2).2).2.devs 0).state
        = OMAP_DSS_DISPLAY_ACTIVE ∧
      tfp410_enable sample_gpio_is_valid (rejecting_input _ (-5))
          (tfp410_enable sample_gpio_is_valid (accepting_input _)
            (tfp410_connect (accepting_input _) tfp_idle 2).2).2
        = (0, (tfp410_enable sample_gpio_is_valid (accepting_input _)
            (tfp410_connect (accepting_input _) tfp_idle 2).2).2)) ∧
    (((htod_enable (accepting_input _)
          (htod_connect (accepting_input _) htod_idle 2).2).2.devs 0).state
        = OMAP_DSS_DISPLAY_ACTIVE ∧
      htod_enable (rejecting_input _ (-5))
          (htod_enable (accepting_input _) (htod_connect (accepting_input _) htod_idle 2).2).2
        = (0, (htod_enable (accepting_input _)
            (htod_connect (accepting_input _) htod_idle 2).2).2)) :=
  enable_idempotent sample_gpio_is_valid sample_gpio_is_valid (accepting_input _)
    (rejecting_input _ (-5)) (tfp410_connect (accepting_input _) tfp_idle 2).2
    (accepting_input _) (rejecting_input _ (-5))
    (htod_connect (accepting_input _) htod_idle 2).2 (by decide) (by decide) (by decide)

/-- C9: `tfp410_enable` on a node that is not connected returns `-ENODEV`,
whatever the display state, and leaves the whole state, log included, as it
was: nothing is forwarded to the input and the power-down pin is not
written. -/
theorem tfp410_enable_not_connected {ρ : Type} (gv : Int → Bool)
    (up : UpstreamOps (omap_video_timings ρ)) (w : TfpWorld ρ)
    (hnc : omapdss_device_is_connected (w.devs w.ddata.dssdev) = false) :
    (tfp410_enable gv up w).1 = -19 ∧ (tfp410_enable gv up w).1 = -ENODEV ∧
      (tfp410_enable gv up w).2 = w := by
  simp [tfp410_enable, hnc, ENODEV]

/-- Witness of C9 on the idle example node. -/
theorem tfp410_enable_not_connected_witness :
    (tfp410_enable sample_gpio_is_valid (accepting_input _) tfp_idle).1 = -19 ∧
      (tfp410_enable sample_gpio_is_valid (accepting_input _) tfp_idle).1 = -ENODEV ∧
      (tfp410_enable sample_gpio_is_valid (accepting_input _) tfp_idle).2 = tfp_idle :=
  tfp410_enable_not_connected sample_gpio_is_valid (accepting_input _) tfp_idle (by decide)

/-- C10, as written, fails: on the idle HDMI-to-DVI node (never connected,
no `dst`, no `src`, display state disabled) with an accepting input,
`htod_enable` returns 0, forwards `set_timings` and `enable` to the input and
sets the display state to active. -/
theorem htod_enable_idle_accepted :
    ((htod_idle.devs 0).dst = none ∧ (htod_idle.devs 0).src = none ∧
      (htod_idle.devs 0).state = OMAP_DSS_DISPLAY_DISABLED ∧ htod_idle.calls = []) ∧
    (htod_enable (accepting_input _) htod_idle).1 = 0 ∧
    (htod_enable (accepting_input _) htod_idle).2.calls
      = [Call.set_timings 1 0, Call.enable 1] ∧
    ((htod_enable (accepting_input _) htod_idle).2.devs 0).state
      = OMAP_DSS_DISPLAY_ACTIVE := by
  decide

/-- C10, amended: `htod_enable` does not look at the connection.  On every
node whose display state is not active, the never connected node included,
it forwards `set_timings` with the cached mode and then `enable` to the input
and returns the result of that `enable`; when the result is not 0 it writes
nothing, when it is 0 it sets the node's display state to active. -/
theorem htod_enable_not_active {V : Type} (up : UpstreamOps V) (w : HtodWorld V)
    (hst : (w.devs w.ddata.dssdev).state ≠ OMAP_DSS_DISPLAY_ACTIVE) :
    (htod_enable up w).1
        = (up.enable (up.set_timings w.devs w.ddata.in_ w.ddata.vm) w.ddata.in_).1 ∧
    (htod_enable up w).2.calls
        = w.calls ++ [Call.set_timings w.ddata.in_ w.ddata.vm, Call.enable w.ddata.in_] ∧
    (htod_enable up w).2.ddata = w.ddata ∧
    ((up.enable (up.set_timings w.devs w.ddata.in_ w.ddata.vm) w.ddata.in_).1 ≠ 0 →
      (htod_enable up w).2.devs
        = (up.enable (up.set_timings w.devs w.ddata.in_ w.ddata.vm) w.ddata.in_).2) ∧
    ((up.enable (up.set_timings w.devs w.ddata.in_ w.ddata.vm) w.ddata.in_).1 = 0 →
      (htod_enable up w).2.devs
        = set_state (up.enable (up.set_timings w.devs w.ddata.in_ w.ddata.vm) w.ddata.in_).2
            w.ddata.dssdev OMAP_DSS_DISPLAY_ACTIVE ∧
      ((htod_enable up w).2.devs w.ddata.dssdev).state = OMAP_DSS_DISPLAY_ACTIVE) := by
  by_cases hr : (up.enable (up.set_timings w.devs w.ddata.in_ w.ddata.vm) w.ddata.in_).1 = 0
  · simp [htod_enable, hst, hr, World.logged]
  · simp [htod_enable, hst, hr, World.logged]

/-- Witness of amended C10 on the idle example node with a failing input. -/
theorem htod_enable_not_active_witness :
    (htod_enable (rejecting_input _ (-5)) htod_idle).1 = -5 ∧
    (htod_enable (rejecting_input _ (-5)) htod_idle).2.calls
        = [] ++ [Call.set_timings 1 0, Call.enable 1] ∧
    ((htod_enable (rejecting_input _ (-5)) htod_idle).2.devs 0).state
        = OMAP_DSS_DISPLAY_DISABLED :=
  have h := htod_enable_not_active (rejecting_input _ (-5)) htod_idle (by decide)
  ⟨h.1, h.2.1, by rw [h.2.2.2.1 (by decide)]; rfl⟩

/-- The shape of `tfp410_enable` on a connected node that is not enabled. -/
theorem tfp410_enable_forwarded {ρ : Type} (gv : Int → Bool)
    (up : UpstreamOps (omap_video_timings ρ)) (w : TfpWorld ρ)
    (hc : omapdss_device_is_connected (w.devs w.ddata.dssdev) = true)
    (hne : omapdss_device_is_enabled (w.devs w.ddata.dssdev) = false) :
    tfp410_enable gv up w
      = if (up.enable (tfp410_enable_devs up w) w.ddata.in_).1 ≠ 0 then
          ((up.enable (tfp410_enable_devs up w) w.ddata.in_).1,
            { w with
              devs := (up.enable (tfp410_enable_devs up w) w.ddata.in_).2
              calls := w.calls ++ tfp410_enable_prologue w ++ [Call.enable w.ddata.in_] })
        else
          (0, { w with
              devs := set_state (up.enable (tfp410_enable_devs up w) w.ddata.in_).2
                w.ddata.dssdev OMAP_DSS_DISPLAY_ACTIVE
              calls := w.calls ++ tfp410_enable_prologue w ++ [Call.enable w.ddata.in_]
                ++ (if gv w.ddata.pd_gpio then [Call.gpio_set_value w.ddata.pd_gpio 1]
                    else []) }) := by
  unfold tfp410_enable tfp410_enable_devs tfp410_enable_prologue
  simp only [World.logged, hc, hne]
  by_cases hd : w.ddata.data_lines = 0 <;> by_cases hg : gv w.ddata.pd_gpio = true <;>
    by_cases hr : (up.enable (up.set_timings w.devs w.ddata.in_ w.ddata.timings)
      w.ddata.in_).1 = 0 <;>
    by_cases hr2 : (up.enable (up.set_data_lines
      (up.set_timings w.devs w.ddata.in_ w.ddata.timings) w.ddata.in_ w.ddata.data_lines)
      w.ddata.in_).1 = 0 <;>
    simp [hd, hg, hr, hr2]

/-- C11: in both drivers, on a node that is not enabled (for tfp410: and
connected), when the forwarded `enable` returns a non-zero error `r`, enable
returns exactly `r` and writes nothing itself: the display state is not set
to active, the driver data (cached timing included) is as before, the device
table is what the input's calls left, so the record of every device those
calls left alone (the node's `dst` and state) is as before, and the log holds
only the forwarded calls: the power-down pin is never written. -/
theorem enable_upstream_error {ρ V : Type} (gv : Int → Bool)
    (upT : UpstreamOps (omap_video_timings ρ)) (wT : TfpWorld ρ)
    (upH : UpstreamOps V) (wH : HtodWorld V)
    (hc : omapdss_device_is_connected (wT.devs wT.ddata.dssdev) = true)
    (hne : omapdss_device_is_enabled (wT.devs wT.ddata.dssdev) = false)
    (hT : (upT.enable (tfp410_enable_devs upT wT) wT.ddata.in_).1 ≠ 0)
    (hneH : (wH.devs wH.ddata.dssdev).state ≠ OMAP_DSS_DISPLAY_ACTIVE)
    (hH : (upH.enable (upH.set_timings wH.devs wH.ddata.in_ wH.ddata.vm) wH.ddata.in_).1 ≠ 0) :
    ((tfp410_enable gv upT wT).1 = (upT.enable (tfp410_enable_devs upT wT) wT.ddata.in_).1 ∧
      (tfp410_enable gv upT wT).2.ddata = wT.ddata ∧
      (tfp410_enable gv upT wT).2.devs
        = (upT.enable (tfp410_enable_devs upT wT) wT.ddata.in_).2 ∧
      (∀ d, (upT.enable (tfp410_enable_devs upT wT) wT.ddata.in_).2 d = wT.devs d →
        (tfp410_enable gv upT wT).2.devs d = wT.devs d) ∧
      (tfp410_enable gv upT wT).2.calls
        = wT.calls ++ tfp410_enable_prologue wT ++ [Call.enable wT.ddata.in_] ∧
      (∀ g v, Call.gpio_set_value g v ∈ (tfp410_enable gv upT wT).2.calls →
        Call.gpio_set_value g v ∈ wT.calls)) ∧
    ((htod_enable upH wH).1
        = (upH.enable (upH.set_timings wH.devs wH.ddata.in_ wH.ddata.vm) wH.ddata.in_).1 ∧
      (htod_enable upH wH).2.ddata = wH.ddata ∧
      (htod_enable upH wH).2.devs
        = (upH.enable (upH.set_timings wH.devs wH.ddata.in_ wH.ddata.vm) wH.ddata.in_).2 ∧
      (∀ d, (upH.enable (upH.set_timings wH.devs wH.ddata.in_ wH.ddata.vm) wH.ddata.in_).2 d
          = wH.devs d → (htod_enable upH wH).2.devs d = wH.devs d) ∧
      (htod_enable upH wH).2.calls
        = wH.calls ++ [Call.set_timings wH.ddata.in_ wH.ddata.vm, Call.enable wH.ddata.in_]) := by
  constructor
  · rw [tfp410_enable_forwarded gv upT wT hc hne]
    rw [if_pos hT]
    refine ⟨rfl, rfl, rfl, fun d h => h, rfl, ?_⟩
    intro g v hm
    simp only [List.mem_append, List.mem_singleton] at hm
    rcases hm with (hm | hm) | hm
    · exact hm
    · unfold tfp410_enable_prologue at hm
      split at hm <;> simp at hm
    · simp at hm
  · simp [htod_enable, hneH, hH, World.logged]

/-- Witness of C11: the example nodes connected to device 2, with an input
whose `enable` fails with -5. -/
theorem enable_upstream_error_witness :
    ((tfp410_enable sample_gpio_is_valid (rejecting_input _ (-5))
        (tfp410_connect (accepting_input _) tfp_idle 2).2).1 = -5 ∧
      ((tfp410_enable sample_gpio_is_valid (rejecting_input _ (-5))
        (tfp410_connect (accepting_input _) tfp_idle 2).2).2.devs 0).state
        = OMAP_DSS_DISPLAY_DISABLED ∧
      (tfp410_enable sample_gpio_is_valid (rejecting_input _ (-5))
        (tfp410_connect (accepting_input _) tfp_idle 2).2).2.calls
        = [Call.connect 1 0, Call.set_timings 1 (sample_timings 0), Call.set_data_lines 1 24,
            Call.enable 1]) ∧
    ((htod_enable (rejecting_input _ (-5))
        (htod_connect (accepting_input _) htod_idle 2).2).1 = -5 ∧
      ((htod_enable (rejecting_input _ (-5))
        (htod_connect (accepting_input _) htod_idle 2).2).2.devs 0).state
        = OMAP_DSS_DISPLAY_DISABLED) :=
  have h := enable_upstream_error sample_gpio_is_valid (rejecting_input _ (-5))
    (tfp410_connect (accepting_input _) tfp_idle 2).2 (rejecting_input _ (-5))
    (htod_connect (accepting_input _) htod_idle 2).2
    (by decide) (by decide) (by decide) (by decide) (by decide)
  ⟨⟨h.1.1, by rw [h.1.2.2.2.1 0 rfl]; decide, by rw [h.1.2.2.2.2.1]; decide⟩,
   ⟨h.2.1, by rw [h.2.2.2.2.1 0 rfl]; decide⟩⟩

/-- C12: in both drivers, on a node that is not enabled (for tfp410: and
connected) whose input accepts `enable`, enable returns 0 and the node's
display state becomes active.  The log grows by `set_timings` carrying the
cached timing (what `get_timings` returns), then, in tfp410 with `data_lines`
set, `set_data_lines`, then `enable`; in tfp410 the write of 1 to a valid
power-down pin comes last, after the input's `enable` has returned 0. -/
theorem enable_success {ρ V : Type} (gv : Int → Bool)
    (upT : UpstreamOps (omap_video_timings ρ)) (wT : TfpWorld ρ)
    (upH : UpstreamOps V) (wH : HtodWorld V)
    (hc : omapdss_device_is_connected (wT.devs wT.ddata.dssdev) = true)
    (hne : omapdss_device_is_enabled (wT.devs wT.ddata.dssdev) = false)
    (hT : (upT.enable (tfp410_enable_devs upT wT) wT.ddata.in_).1 = 0)
    (hneH : (wH.devs wH.ddata.dssdev).state ≠ OMAP_DSS_DISPLAY_ACTIVE)
    (hH : (upH.enable (upH.set_timings wH.devs wH.ddata.in_ wH.ddata.vm) wH.ddata.in_).1 = 0) :
    ((tfp410_enable gv upT wT).1 = 0 ∧
      ((tfp410_enable gv upT wT).2.devs wT.ddata.dssdev).state = OMAP_DSS_DISPLAY_ACTIVE ∧
      (tfp410_enable gv upT wT).2.calls
        = wT.calls ++ [Call.set_timings wT.ddata.in_ (tfp410_get_timings wT)]
          ++ (if wT.ddata.data_lines ≠ 0 then
                [Call.set_data_lines wT.ddata.in_ wT.ddata.data_lines] else [])
          ++ [Call.enable wT.ddata.in_]
          ++ (if gv wT.ddata.pd_gpio then [Call.gpio_set_value wT.ddata.pd_gpio 1] else [])) ∧
    ((htod_enable upH wH).1 = 0 ∧
      ((htod_enable upH wH).2.devs wH.ddata.dssdev).state = OMAP_DSS_DISPLAY_ACTIVE ∧
      (htod_enable upH wH).2.calls
        = wH.calls ++ [Call.set_timings wH.ddata.in_ (htod_get_timings wH),
            Call.enable wH.ddata.in_]) := by
  constructor
  · rw [tfp410_enable_forwarded gv upT wT hc hne]
    have hT2 : ¬ ((upT.enable (tfp410_enable_devs upT wT) wT.ddata.in_).1 ≠ 0) := by
      simp [hT]
    rw [if_neg hT2]
    refine ⟨rfl, by simp, ?_⟩
    unfold tfp410_enable_prologue tfp410_get_timings
    by_cases hd : wT.ddata.data_lines = 0 <;> simp [hd]
  · simp [htod_enable, htod_get_timings, hneH, hH, World.logged]

/-- Witness of C12: the example nodes connected to device 2, with the
accepting input. -/
theorem enable_success_witness :
    ((tfp410_enable sample_gpio_is_valid (accepting_input _)
        (tfp410_connect (accepting_input _) tfp_idle 2).2).1 = 0 ∧
      (tfp410_enable sample_gpio_is_valid (accepting_input _)
        (tfp410_connect (accepting_input _) tfp_idle 2).2).2.calls
        = [Call.connect 1 0, Call.set_timings 1 (sample_timings 0), Call.set_data_lines 1 24,
            Call.enable 1, Call.gpio_set_value 5 1]) ∧
    ((htod_enable (accepting_input _) (htod_connect (accepting_input _) htod_idle 2).2).1 = 0 ∧
      (htod_enable (accepting_input _) (htod_connect (accepting_input _) htod_idle 2).2).2.calls
        = [Call.connect 1 0, Call.set_timings 1 0, Call.enable 1]) :=
  have h := enable_success sample_gpio_is_valid (accepting_input _)
    (tfp410_connect (accepting_input _) tfp_idle 2).2 (accepting_input _)
    (htod_connect (accepting_input _) htod_idle 2).2
    (by decide) (by decide) (by decide) (by decide) (by decide)
  ⟨⟨h.1.1, by rw [h.1.2.2]; decide⟩, ⟨h.2.1, by rw [h.2.2.2]; decide⟩⟩

/-! ## disable -/

/-- C13: in both drivers, on an enabled node, disable forwards exactly one
`disable` to the input and then sets the display state to disabled; in tfp410
a valid power-down pin is written 0 before the `disable` is forwarded, so with
a valid pin the order is pin := 0, input disable, state := disabled.  Disable
writes no link: `src` and `dst` of every device are as the input's `disable`
left them, so the node stays connected when the input leaves its `src`
alone. -/
theorem disable_order {ρ V : Type} (gv : Int → Bool)
    (upT : UpstreamOps (omap_video_timings ρ)) (wT : TfpWorld ρ)
    (upH : UpstreamOps V) (wH : HtodWorld V)
    (heT : (wT.devs wT.ddata.dssdev).state = OMAP_DSS_DISPLAY_ACTIVE)
    (heH : (wH.devs wH.ddata.dssdev).state = OMAP_DSS_DISPLAY_ACTIVE) :
    ((tfp410_disable gv upT wT).calls
        = wT.calls
          ++ (if gv wT.ddata.pd_gpio then [Call.gpio_set_value wT.ddata.pd_gpio 0] else [])
          ++ [Call.disable wT.ddata.in_] ∧
      (gv wT.ddata.pd_gpio = true →
        (tfp410_disable gv upT wT).calls
          = wT.calls ++ [Call.gpio_set_value wT.ddata.pd_gpio 0, Call.disable wT.ddata.in_]) ∧
      (tfp410_disable gv upT wT).devs
        = set_state (upT.disable wT.devs wT.ddata.in_) wT.ddata.dssdev
            OMAP_DSS_DISPLAY_DISABLED ∧
      ((tfp410_disable gv upT wT).devs wT.ddata.dssdev).state = OMAP_DSS_DISPLAY_DISABLED ∧
      (∀ d, ((tfp410_disable gv upT wT).devs d).src = (upT.disable wT.devs wT.ddata.in_ d).src ∧
        ((tfp410_disable gv upT wT).devs d).dst = (upT.disable wT.devs wT.ddata.in_ d).dst) ∧
      ((upT.disable wT.devs wT.ddata.in_ wT.ddata.dssdev).src = (wT.devs wT.ddata.dssdev).src →
        omapdss_device_is_connected ((tfp410_disable gv upT wT).devs wT.ddata.dssdev)
          = omapdss_device_is_connected (wT.devs wT.ddata.dssdev)) ∧
      (tfp410_disable gv upT wT).ddata = wT.ddata) ∧
    ((htod_disable upH wH).calls = wH.calls ++ [Call.disable wH.ddata.in_] ∧
      (htod_disable upH wH).devs
        = set_state (upH.disable wH.devs wH.ddata.in_) wH.ddata.dssdev
            OMAP_DSS_DISPLAY_DISABLED ∧
      ((htod_disable upH wH).devs wH.ddata.dssdev).state = OMAP_DSS_DISPLAY_DISABLED ∧
      (∀ d, ((htod_disable upH wH).devs d).src = (upH.disable wH.devs wH.ddata.in_ d).src ∧
        ((htod_disable upH wH).devs d).dst = (upH.disable wH.devs wH.ddata.in_ d).dst) ∧
      ((upH.disable wH.devs wH.ddata.in_ wH.ddata.dssdev).src = (wH.devs wH.ddata.dssdev).src →
        omapdss_device_is_connected ((htod_disable upH wH).devs wH.ddata.dssdev)
          = omapdss_device_is_connected (wH.devs wH.ddata.dssdev)) ∧
      (htod_disable upH wH).ddata = wH.ddata) := by
  constructor
  · by_cases hg : gv wT.ddata.pd_gpio = true
    · simp [tfp410_disable, omapdss_device_is_enabled, omapdss_device_is_connected, heT, hg,
        World.logged]
      intro h; rw [h]
    · simp [tfp410_disable, omapdss_device_is_enabled, omapdss_device_is_connected, heT, hg,
        World.logged]
      intro h; rw [h]
  · simp [htod_disable, omapdss_device_is_connected, heH, World.logged]
    intro h; rw [h]

/-- Witness of C13 on the enabled example nodes. -/
theorem disable_order_witness :
    ((tfp410_disable sample_gpio_is_valid (accepting_input _) tfp_active).calls
        = tfp_active.calls ++ [Call.gpio_set_value 5 0, Call.disable 1] ∧
      ((tfp410_disable sample_gpio_is_valid (accepting_input _) tfp_active).devs 0).state
        = OMAP_DSS_DISPLAY_DISABLED ∧
      ((tfp410_disable sample_gpio_is_valid (accepting_input _) tfp_active).devs 0).dst
        = some 2) ∧
    ((htod_disable (accepting_input _) htod_active).calls
        = htod_active.calls ++ [Call.disable 1] ∧
      ((htod_disable (accepting_input _) htod_active).devs 0).state
        = OMAP_DSS_DISPLAY_DISABLED ∧
      ((htod_disable (accepting_input _) htod_active).devs 0).dst = some 2) :=
  have h := disable_order sample_gpio_is_valid (accepting_input _) tfp_active
    (accepting_input _) htod_active (by decide) (by decide)
  ⟨⟨h.1.2.1 (by decide), h.1.2.2.2.1, by rw [(h.1.2.2.2.2.1 0).2]; decide⟩,
   ⟨h.2.1, h.2.2.2.1, by rw [(h.2.2.2.2.1 0).2]; decide⟩⟩

/-! ## disconnect while enabled -/

/-- C15, as written, fails: on the example nodes connected to device 2 and
enabled, disconnect(2) fires no `WARN_ON`, clears the node's `dst` and the
`src` of device 2 and forwards a disconnect to the input; only the display
state stays active. -/
theorem disconnect_while_enabled_carried_out :
    (((tfp_active.devs 0).dst = some 2 ∧ (tfp_active.devs 0).state = OMAP_DSS_DISPLAY_ACTIVE) ∧
      (tfp410_disconnect (accepting_input _) tfp_active 2).warnings = 0 ∧
      ((tfp410_disconnect (accepting_input _) tfp_active 2).devs 0).dst = none ∧
      ((tfp410_disconnect (accepting_input _) tfp_active 2).devs 2).src = none ∧
      (tfp410_disconnect (accepting_input _) tfp_active 2).calls
        = tfp_active.calls ++ [Call.disconnect 1 0] ∧
      ((tfp410_disconnect (accepting_input _) tfp_active 2).devs 0).state
        = OMAP_DSS_DISPLAY_ACTIVE) ∧
    (((htod_active.devs 0).dst = some 2 ∧
        (htod_active.devs 0).state = OMAP_DSS_DISPLAY_ACTIVE) ∧
      (htod_disconnect (accepting_input _) htod_active 2).warnings = 0 ∧
      ((htod_disconnect (accepting_input _) htod_active 2).devs 0).dst = none ∧
      ((htod_disconnect (accepting_input _) htod_active 2).devs 2).src = none ∧
      (htod_disconnect (accepting_input _) htod_active 2).calls
        = htod_active.calls ++ [Call.disconnect 1 0] ∧
      ((htod_disconnect (accepting_input _) htod_active 2).devs 0).state
        = OMAP_DSS_DISPLAY_ACTIVE) := by
  decide

/-- C15, amended: in both drivers, disconnect with the node's current `dst`
while the display state is active (for tfp410: and the node connected) is
carried out like any other disconnect.  No `WARN_ON` fires, one disconnect
is forwarded to the input, and the table handed to it has the `src` of the
device and the node's `dst` cleared; disconnect does not write the display
state, which is still active in that table. -/
theorem disconnect_while_enabled {ρ V : Type}
    (upT : UpstreamOps (omap_video_timings ρ)) (wT : TfpWorld ρ) (dT : DevId)
    (upH : UpstreamOps V) (wH : HtodWorld V) (dH : DevId)
    (hcT : omapdss_device_is_connected (wT.devs wT.ddata.dssdev) = true)
    (hdT : (wT.devs wT.ddata.dssdev).dst = some dT)
    (haT : (wT.devs wT.ddata.dssdev).state = OMAP_DSS_DISPLAY_ACTIVE)
    (hdH : (wH.devs wH.ddata.dssdev).dst = some dH)
    (haH : (wH.devs wH.ddata.dssdev).state = OMAP_DSS_DISPLAY_ACTIVE) :
    ((tfp410_disconnect upT wT dT).warnings = wT.warnings ∧
      (tfp410_disconnect upT wT dT).calls
        = wT.calls ++ [Call.disconnect wT.ddata.in_ wT.ddata.dssdev] ∧
      (tfp410_disconnect upT wT dT).devs
        = upT.disconnect (set_dst (set_src wT.devs dT none) wT.ddata.dssdev none)
            wT.ddata.in_ wT.ddata.dssdev ∧
      (set_dst (set_src wT.devs dT none) wT.ddata.dssdev none wT.ddata.dssdev).dst = none ∧
      (set_dst (set_src wT.devs dT none) wT.ddata.dssdev none dT).src = none ∧
      (set_dst (set_src wT.devs dT none) wT.ddata.dssdev none wT.ddata.dssdev).state
        = OMAP_DSS_DISPLAY_ACTIVE) ∧
    ((htod_disconnect upH wH dH).warnings = wH.warnings ∧
      (htod_disconnect upH wH dH).calls
        = wH.calls ++ [Call.disconnect wH.ddata.in_ wH.ddata.dssdev] ∧
      (htod_disconnect upH wH dH).devs
        = upH.disconnect (set_dst (set_src wH.devs dH none) wH.ddata.dssdev none)
            wH.ddata.in_ wH.ddata.dssdev ∧
      (set_dst (set_src wH.devs dH none) wH.ddata.dssdev none wH.ddata.dssdev).dst = none ∧
      (set_dst (set_src wH.devs dH none) wH.ddata.dssdev none dH).src = none ∧
      (set_dst (set_src wH.devs dH none) wH.ddata.dssdev none wH.ddata.dssdev).state
        = OMAP_DSS_DISPLAY_ACTIVE) := by
  constructor
  · simp [tfp410_disconnect, World.WARN_ON, World.logged, hcT, hdT, haT]
  · simp [htod_disconnect, World.WARN_ON, World.logged, hdH, haH]

/-- Witness of amended C15 on the enabled example nodes. -/
theorem disconnect_while_enabled_witness :
    ((tfp410_disconnect (accepting_input _) tfp_active 2).warnings = tfp_active.warnings ∧
      (tfp410_disconnect (accepting_input _) tfp_active 2).calls
        = tfp_active.calls ++ [Call.disconnect 1 0]) ∧
    ((htod_disconnect (accepting_input _) htod_active 2).warnings = htod_active.warnings ∧
      (htod_disconnect (accepting_input _) htod_active 2).calls
        = htod_active.calls ++ [Call.disconnect 1 0]) :=
  have h := disconnect_while_enabled (accepting_input _) tfp_active 2
    (accepting_input _) htod_active 2 (by decide) (by decide) (by decide) (by decide)
    (by decide)
  ⟨⟨h.1.1, h.1.2.1⟩, ⟨h.2.1, h.2.2.1⟩⟩

/-! ## check_timings -/

/-- C16: in every state and for every descriptor, `check_timings` makes
exactly one call, the input's `check_timings` on the normalized descriptor
(tfp410: the two edges rising and `de_level` active high; hdmitodvi: the
descriptor itself), returns that call's result, and writes no state itself:
the driver data (cached timing) is as before and the device table (panel
timing, links, display state) is what the input's call left. -/
theorem check_timings_forwarded {ρ V : Type}
    (upT : UpstreamOps (omap_video_timings ρ)) (wT : TfpWorld ρ)
    (t : omap_video_timings ρ) (upH : UpstreamOps V) (wH : HtodWorld V) (vm : V) :
    ((tfp410_check_timings upT wT t).1
        = (upT.check_timings wT.devs wT.ddata.in_ (tfp410_fix_timings t)).1 ∧
      tfp410_fix_timings t
        = { data_pclk_edge := OMAPDSS_DRIVE_SIG_RISING_EDGE
            sync_pclk_edge := OMAPDSS_DRIVE_SIG_RISING_EDGE
            de_level := OMAPDSS_SIG_ACTIVE_HIGH
            rest := t.rest } ∧
      (tfp410_check_timings upT wT t).2.1.calls
        = wT.calls ++ [Call.check_timings wT.ddata.in_ (tfp410_fix_timings t)] ∧
      (tfp410_check_timings upT wT t).2.1.ddata = wT.ddata ∧
      (tfp410_check_timings upT wT t).2.1.devs
        = (upT.check_timings wT.devs wT.ddata.in_ (tfp410_fix_timings t)).2 ∧
      (tfp410_check_timings upT wT t).2.1.warnings = wT.warnings) ∧
    ((htod_check_timings upH wH vm).1 = (upH.check_timings wH.devs wH.ddata.in_ vm).1 ∧
      (htod_check_timings upH wH vm).2.1.calls
        = wH.calls ++ [Call.check_timings wH.ddata.in_ vm] ∧
      (htod_check_timings upH wH vm).2.1.ddata = wH.ddata ∧
      (htod_check_timings upH wH vm).2.1.devs
        = (upH.check_timings wH.devs wH.ddata.in_ vm).2 ∧
      (htod_check_timings upH wH vm).2.1.warnings = wH.warnings) :=
  ⟨⟨rfl, rfl, rfl, rfl, rfl, rfl⟩, rfl, rfl, rfl, rfl, rfl⟩

/-- C17, as written, fails for tfp410: with an input that leaves the
descriptor alone, a descriptor with falling edges and `de_level` active low
comes back from `tfp410_check_timings` with rising edges and `de_level` active
high. -/
theorem tfp410_check_timings_rewrites_caller :
    (sample_timings 7).data_pclk_edge = OMAPDSS_DRIVE_SIG_FALLING_EDGE ∧
    (tfp410_check_timings (accepting_input _) tfp_idle (sample_timings 7)).2.2
      ≠ sample_timings 7 ∧
    (tfp410_check_timings (accepting_input _) tfp_idle (sample_timings 7)).2.2
      = { data_pclk_edge := OMAPDSS_DRIVE_SIG_RISING_EDGE
          sync_pclk_edge := OMAPDSS_DRIVE_SIG_RISING_EDGE
          de_level := OMAPDSS_SIG_ACTIVE_HIGH
          rest := 7 } := by
  decide

/-- C17, amended: neither driver makes a copy.  `tfp410_check_timings`
normalizes the caller's descriptor in place and hands that same descriptor to
the input, `htod_check_timings` hands the caller's descriptor to the input as
it is; after the call the caller's descriptor is what the input's
`check_timings` left of the normalized descriptor (tfp410) or of the
descriptor handed in (hdmitodvi).  When the input leaves the descriptor as
handed, the caller of tfp410 finds the normalized descriptor, every field
other than the three as handed in, which equals the descriptor handed in
exactly when that one already had rising edges and `de_level` active high,
and the caller of hdmitodvi finds the descriptor handed in. -/
theorem check_timings_caller_descriptor {ρ V : Type}
    (upT : UpstreamOps (omap_video_timings ρ)) (wT : TfpWorld ρ)
    (t : omap_video_timings ρ) (upH : UpstreamOps V) (wH : HtodWorld V) (vm : V) :
    (tfp410_check_timings upT wT t).2.2
      = upT.check_timings_fixup wT.devs wT.ddata.in_ (tfp410_fix_timings t) ∧
    (htod_check_timings upH wH vm).2.2 = upH.check_timings_fixup wH.devs wH.ddata.in_ vm ∧
    (upT.check_timings_fixup wT.devs wT.ddata.in_ (tfp410_fix_timings t)
        = tfp410_fix_timings t →
      (tfp410_check_timings upT wT t).2.2 = tfp410_fix_timings t ∧
      (tfp410_check_timings upT wT t).2.2.rest = t.rest ∧
      ((tfp410_check_timings upT wT t).2.2 = t ↔
        (t.data_pclk_edge = OMAPDSS_DRIVE_SIG_RISING_EDGE ∧
          t.sync_pclk_edge = OMAPDSS_DRIVE_SIG_RISING_EDGE ∧
          t.de_level = OMAPDSS_SIG_ACTIVE_HIGH))) ∧
    (upH.check_timings_fixup wH.devs wH.ddata.in_ vm = vm →
      (htod_check_timings upH wH vm).2.2 = vm) := by
  refine ⟨rfl, rfl, ?_, fun h => h⟩
  intro hfix
  have e : (tfp410_check_timings upT wT t).2.2 = tfp410_fix_timings t := hfix
  rw [e]
  refine ⟨rfl, rfl, ?_⟩
  cases t with
  | mk a b c r =>
    simp only [tfp410_fix_timings]
    constructor
    · intro h
      injection h with h1 h2 h3 _
      exact ⟨h1.symm, h2.symm, h3.symm⟩
    · rintro ⟨h1, h2, h3⟩
      cases h1; cases h2; cases h3
      rfl

/-- Witness of amended C17: with the input that rounds the remaining fields,
the caller of `tfp410_check_timings` finds the descriptor normalized and
rounded and the caller of `htod_check_timings` what the input left; with the
input that leaves the descriptor alone, the callers find the normalized
descriptor and the descriptor handed in. -/
theorem check_timings_caller_descriptor_witness :
    ((tfp410_check_timings rounding_input tfp_idle (sample_timings 7)).2.2
        = { data_pclk_edge := OMAPDSS_DRIVE_SIG_RISING_EDGE
            sync_pclk_edge := OMAPDSS_DRIVE_SIG_RISING_EDGE
            de_level := OMAPDSS_SIG_ACTIVE_HIGH
            rest := 6 }) ∧
    ((tfp410_check_timings (accepting_input _) tfp_idle (sample_timings 7)).2.2
        = tfp410_fix_timings (sample_timings 7) ∧
      (htod_check_timings (accepting_input _) htod_idle 7).2.2 = 7) :=
  have hr := check_timings_caller_descriptor rounding_input tfp_idle (sample_timings 7)
    (accepting_input Nat) htod_idle 7
  have ha := check_timings_caller_descriptor (accepting_input _) tfp_idle (sample_timings 7)
    (accepting_input Nat) htod_idle 7
  ⟨hr.1.trans (by decide), (ha.2.2.1 rfl).1, ha.2.2.2 rfl⟩

/-! ## Bring-up -/

/-- The four bytes are the signature exactly when each has its value. -/
theorem tfp410_signature_iff (chip_id : Fin 4 → Nat) :
    (∀ i, chip_id i = tfp410_signature i) ↔
      (chip_id 0 = 0x4c ∧ chip_id 1 = 0x01 ∧ chip_id 2 = 0x10 ∧ chip_id 3 = 0x04) := by
  constructor
  · intro h
    exact ⟨h 0, h 1, h 2, h 3⟩
  · rintro ⟨h0, h1, h2, h3⟩ i
    fin_cases i
    · exact h0
    · exact h1
    · exact h2
    · exact h3

/-- The four exits of `tfp410_i2c_probe`. -/
theorem tfp410_i2c_probe_cases (client : i2c_client) :
    tfp410_i2c_probe client
      = if IS_ERR client.devm_regmap_init_i2c = true then
          (client.devm_regmap_init_i2c, [BusCall.devm_regmap_init_i2c])
        else if (client.regmap_bulk_read 0x00 4).1 < 0 then
          ((client.regmap_bulk_read 0x00 4).1,
            [BusCall.devm_regmap_init_i2c, BusCall.regmap_bulk_read 0x00 4])
        else if ∀ i, (client.regmap_bulk_read 0x00 4).2 i = tfp410_signature i then
          (client.regmap_update_bits 0x08 0x7f 0x37,
            [BusCall.devm_regmap_init_i2c, BusCall.regmap_bulk_read 0x00 4,
              BusCall.regmap_update_bits 0x08 0x7f 0x37])
        else
          (-ENODEV, [BusCall.devm_regmap_init_i2c, BusCall.regmap_bulk_read 0x00 4]) := by
  unfold tfp410_i2c_probe PTR_ERR TFP410_VEN_ID_L TFP410_CTL_1_MODE
  by_cases he : IS_ERR client.devm_regmap_init_i2c = true
  · simp [he]
  · by_cases hr : (client.regmap_bulk_read 0x00 4).1 < 0
    · simp [he, hr]
    · by_cases hs : ∀ i, (client.regmap_bulk_read 0x00 4).2 i = tfp410_signature i
      · have hs2 := (tfp410_signature_iff _).1 hs
        rw [if_pos hs]
        simp [he, hr, hs2.1, hs2.2.1, hs2.2.2.1, hs2.2.2.2]
      · have hs2 := fun h => hs ((tfp410_signature_iff _).2 h)
        rw [if_neg hs]
        have hb : ((client.regmap_bulk_read 0 4).2 0 == 76 &&
            (client.regmap_bulk_read 0 4).2 1 == 1 &&
            (client.regmap_bulk_read 0 4).2 2 == 16 &&
            (client.regmap_bulk_read 0 4).2 3 == 4) = false := by
          rw [Bool.eq_false_iff]
          intro h
          simp only [Bool.and_eq_true, beq_iff_eq] at h
          exact hs2 ⟨h.1.1.1, h.1.1.2, h.1.2, h.2⟩
        simp [he, hr, hb]

/-- C18: `tfp410_i2c_probe` returns 0 exactly when the bus session opens (the
regmap pointer is no error value), the read of 4 registers from register 0x00
does not fail (its result is not negative) and leaves exactly the bytes 0x4c,
0x01, 0x10, 0x04, and the update of register 0x08 with mask 0x7f and value
0x37 returns 0.  A session that fails to open and a failing read have their
negative error returned; every block that differs from the signature in some
byte gives `-ENODEV` with no call on the mode-control register; and after a
matching block the result of the update, a negative error included, is
returned unchanged. -/
theorem tfp410_i2c_probe_result (client : i2c_client) :
    ((tfp410_i2c_probe client).1 = 0 ↔
      (IS_ERR client.devm_regmap_init_i2c = false ∧
        ¬ (client.regmap_bulk_read 0x00 4).1 < 0 ∧
        (client.regmap_bulk_read 0x00 4).2 0 = 0x4c ∧
        (client.regmap_bulk_read 0x00 4).2 1 = 0x01 ∧
        (client.regmap_bulk_read 0x00 4).2 2 = 0x10 ∧
        (client.regmap_bulk_read 0x00 4).2 3 = 0x04 ∧
        client.regmap_update_bits 0x08 0x7f 0x37 = 0)) ∧
    (IS_ERR client.devm_regmap_init_i2c = true →
      tfp410_i2c_probe client
        = (client.devm_regmap_init_i2c, [BusCall.devm_regmap_init_i2c]) ∧
      client.devm_regmap_init_i2c < 0) ∧
    (IS_ERR client.devm_regmap_init_i2c = false →
      (client.regmap_bulk_read 0x00 4).1 < 0 →
      tfp410_i2c_probe client
        = ((client.regmap_bulk_read 0x00 4).1,
            [BusCall.devm_regmap_init_i2c, BusCall.regmap_bulk_read 0x00 4])) ∧
    (IS_ERR client.devm_regmap_init_i2c = false →
      ¬ (client.regmap_bulk_read 0x00 4).1 < 0 →
      (∃ i, (client.regmap_bulk_read 0x00 4).2 i ≠ tfp410_signature i) →
      tfp410_i2c_probe client
        = (-ENODEV, [BusCall.devm_regmap_init_i2c, BusCall.regmap_bulk_read 0x00 4]) ∧
      (tfp410_i2c_probe client).1 = -19) ∧
    (IS_ERR client.devm_regmap_init_i2c = false →
      ¬ (client.regmap_bulk_read 0x00 4).1 < 0 →
      (∀ i, (client.regmap_bulk_read 0x00 4).2 i = tfp410_signature i) →
      tfp410_i2c_probe client
        = (client.regmap_update_bits 0x08 0x7f 0x37,
            [BusCall.devm_regmap_init_i2c, BusCall.regmap_bulk_read 0x00 4,
              BusCall.regmap_update_bits 0x08 0x7f 0x37])) := by
  have hc := tfp410_i2c_probe_cases client
  have hneg : IS_ERR client.devm_regmap_init_i2c = true → client.devm_regmap_init_i2c < 0 := by
    intro h
    simp only [IS_ERR, decide_eq_true_eq] at h
    exact h.2
  refine ⟨?_, ?_, ?_, ?_, ?_⟩
  · rw [hc]
    have hsig := tfp410_signature_iff (client.regmap_bulk_read 0x00 4).2
    by_cases he : IS_ERR client.devm_regmap_init_i2c = true
    · have hn := hneg he
      rw [if_pos he]
      constructor
      · intro h
        have h0 : client.devm_regmap_init_i2c = 0 := h
        omega
      · intro h
        rw [he] at h
        exact absurd h.1 (by decide)
    · have he2 : IS_ERR client.devm_regmap_init_i2c = false := by
        simpa using he
      by_cases hr : (client.regmap_bulk_read 0x00 4).1 < 0
      · rw [if_neg he, if_pos hr]
        constructor
        · intro h
          have h0 : (client.regmap_bulk_read 0x00 4).1 = 0 := h
          omega
        · intro h
          exact absurd hr h.2.1
      · by_cases hs : ∀ i, (client.regmap_bulk_read 0x00 4).2 i = tfp410_signature i
        · rw [if_neg he, if_neg hr, if_pos hs]
          have h4 := hsig.1 hs
          constructor
          · intro h
            exact ⟨he2, hr, h4.1, h4.2.1, h4.2.2.1, h4.2.2.2, h⟩
          · intro h
            exact h.2.2.2.2.2.2
        · rw [if_neg he, if_neg hr, if_neg hs]
          constructor
          · intro h
            have h0 : -ENODEV = 0 := h
            simp [ENODEV] at h0
          · intro h
            exact absurd (hsig.2 ⟨h.2.2.1, h.2.2.2.1, h.2.2.2.2.1, h.2.2.2.2.2.1⟩) hs
  · intro he
    rw [hc, if_pos he]
    exact ⟨rfl, hneg he⟩
  · intro he hr
    rw [hc, if_neg (by simp [he]), if_pos hr]
  · intro he hr hs
    have hs2 : ¬ ∀ i, (client.regmap_bulk_read 0x00 4).2 i = tfp410_signature i := by
      intro h
      obtain ⟨i, hi⟩ := hs
      exact hi (h i)
    rw [hc, if_neg (by simp [he]), if_neg hr, if_neg hs2]
    exact ⟨rfl, by simp [ENODEV]⟩
  · intro he hr hs
    rw [hc, if_neg (by simp [he]), if_neg hr, if_pos hs]

/-- Witness of C18: the example chip with the TFP410 signature is brought up,
the chip with another identification is refused with `-ENODEV` before any
call on the mode-control register. -/
theorem tfp410_i2c_probe_result_witness :
    tfp410_i2c_probe sample_chip
        = (0, [BusCall.devm_regmap_init_i2c, BusCall.regmap_bulk_read 0x00 4,
            BusCall.regmap_update_bits 0x08 0x7f 0x37]) ∧
    tfp410_i2c_probe other_chip
        = (-ENODEV, [BusCall.devm_regmap_init_i2c, BusCall.regmap_bulk_read 0x00 4]) :=
  ⟨(tfp410_i2c_probe_result sample_chip).2.2.2.2 (by decide) (by decide) (by decide),
   ((tfp410_i2c_probe_result other_chip).2.2.2.1 (by decide) (by decide)
      ⟨3, by decide⟩).1⟩

/-- C19, as written, fails: the chip with another identification is refused
by `tfp410_i2c_probe` with `-ENODEV`, `tfp410_init` returns 0 and registers
the platform driver even when the I2C registration failed, and `tfp410_enable`
on the connected example node still returns 0 and makes it active. -/
theorem enable_after_failed_bring_up :
    (tfp410_i2c_probe other_chip).1 = -ENODEV ∧
    tfp410_init (-19) 0
      = (0, [InitCall.i2c_add_driver, InitCall.pr_err (-19),
          InitCall.platform_driver_register]) ∧
    omapdss_device_is_connected ((tfp410_connect (accepting_input _) tfp_idle 2).2.devs 0)
      = true ∧
    (tfp410_enable sample_gpio_is_valid (accepting_input _)
      (tfp410_connect (accepting_input _) tfp_idle 2).2).1 = 0 ∧
    ((tfp410_enable sample_gpio_is_valid (accepting_input _)
      (tfp410_connect (accepting_input _) tfp_idle 2).2).2.devs 0).state
      = OMAP_DSS_DISPLAY_ACTIVE := by
  decide

/-- C19, amended: bring-up does not gate enabling.  `tfp410_init` returns 0 and
registers the platform driver whatever the I2C registration returned, and
`tfp410_enable` reads nothing of what `tfp410_i2c_probe` did: also after a
failed bring-up, on a connected node that is not enabled it returns the
result of the input's `enable`, and when that is 0 the display state becomes
active. -/
theorem enable_not_gated_by_bring_up {ρ : Type} (client : i2c_client)
    (i2c_err platform_err : Int) (gv : Int → Bool)
    (up : UpstreamOps (omap_video_timings ρ)) (w : TfpWorld ρ)
    (hc : omapdss_device_is_connected (w.devs w.ddata.dssdev) = true)
    (hne : omapdss_device_is_enabled (w.devs w.ddata.dssdev) = false) :
    (tfp410_init i2c_err platform_err).1 = 0 ∧
    InitCall.platform_driver_register ∈ (tfp410_init i2c_err platform_err).2 ∧
    ((tfp410_i2c_probe client).1 ≠ 0 →
      (tfp410_enable gv up w).1 = (up.enable (tfp410_enable_devs up w) w.ddata.in_).1 ∧
      ((up.enable (tfp410_enable_devs up w) w.ddata.in_).1 = 0 →
        ((tfp410_enable gv up w).2.devs w.ddata.dssdev).state = OMAP_DSS_DISPLAY_ACTIVE)) := by
  refine ⟨rfl, ?_, ?_⟩
  · unfold tfp410_init
    by_cases h1 : i2c_err = 0 <;> by_cases h2 : platform_err = 0 <;> simp [h1, h2]
  · intro _
    rw [tfp410_enable_forwarded gv up w hc hne]
    by_cases hr : (up.enable (tfp410_enable_devs up w) w.ddata.in_).1 = 0
    · simp [hr]
    · simp [hr]

/-- Witness of amended C19: the refused chip and the connected example node
with the accepting input. -/
theorem enable_not_gated_by_bring_up_witness :
    (tfp410_enable sample_gpio_is_valid (accepting_input _)
        (tfp410_connect (accepting_input _) tfp_idle 2).2).1 = 0 ∧
    ((tfp410_enable sample_gpio_is_valid (accepting_input _)
        (tfp410_connect (accepting_input _) tfp_idle 2).2).2.devs 0).state
      = OMAP_DSS_DISPLAY_ACTIVE :=
  have h := (enable_not_gated_by_bring_up other_chip (-19) 0 sample_gpio_is_valid
    (accepting_input _) (tfp410_connect (accepting_input _) tfp_idle 2).2
    (by decide) (by decide)).2.2 (by decide)
  ⟨h.1.trans (by decide), h.2 (by decide)⟩

/-! ## Sequences of calls -/

/-- A call keeps the handles of the node and of its input. -/
theorem tfp410_step_handles {ρ : Type} (gv : Int → Bool) (w : TfpWorld ρ)
    (s : Op (omap_video_timings ρ) × UpstreamOps (omap_video_timings ρ)) :
    (tfp410_step gv w s).ddata.dssdev = w.ddata.dssdev ∧
      (tfp410_step gv w s).ddata.in_ = w.ddata.in_ := by
  obtain ⟨op, up⟩ := s
  cases op <;>
    simp only [tfp410_step, tfp410_connect, tfp410_disconnect, tfp410_enable, tfp410_disable,
      tfp410_set_timings, tfp410_check_timings, World.logged, World.WARN_ON] <;>
    (try split_ifs) <;> simp

/-- A sequence of calls keeps the handles of the node and of its input. -/
theorem tfp410_run_handles {ρ : Type} (gv : Int → Bool)
    (steps : List (Op (omap_video_timings ρ) × UpstreamOps (omap_video_timings ρ)))
    (w : TfpWorld ρ) :
    (tfp410_run gv w steps).ddata.dssdev = w.ddata.dssdev ∧
      (tfp410_run gv w steps).ddata.in_ = w.ddata.in_ := by
  induction steps generalizing w with
  | nil => exact ⟨rfl, rfl⟩
  | cons s steps ih =>
    have h := ih (tfp410_step gv w s)
    have hs := tfp410_step_handles gv w s
    exact ⟨h.1.trans hs.1, h.2.trans hs.2⟩

/-- A call keeps the handles of the node and of its input. -/
theorem htod_step_handles {V : Type} (w : HtodWorld V) (s : Op V × UpstreamOps V) :
    (htod_step w s).ddata.dssdev = w.ddata.dssdev ∧
      (htod_step w s).ddata.in_ = w.ddata.in_ := by
  obtain ⟨op, up⟩ := s
  cases op <;>
    simp only [htod_step, htod_connect, htod_disconnect, htod_enable, htod_disable,
      htod_set_timings, htod_check_timings, World.logged, World.WARN_ON] <;>
    (try split_ifs) <;> simp

/-- A sequence of calls keeps the handles of the node and of its input. -/
theorem htod_run_handles {V : Type} (steps : List (Op V × UpstreamOps V))
    (w : HtodWorld V) :
    (htod_run w steps).ddata.dssdev = w.ddata.dssdev ∧
      (htod_run w steps).ddata.in_ = w.ddata.in_ := by
  induction steps generalizing w with
  | nil => exact ⟨rfl, rfl⟩
  | cons s steps ih =>
    have h := ih (htod_step w s)
    have hs := htod_step_handles w s
    exact ⟨h.1.trans hs.1, h.2.trans hs.2⟩

/-- Tables with kept links follow one another. -/
theorem links_kept_trans {T : Type} (dssdev : DevId) (a b c : Devs T)
    (h1 : links_kept dssdev a b) (h2 : links_kept dssdev b c) : links_kept dssdev a c :=
  ⟨fun d => (h2.1 d).trans (h1.1 d), h2.2.1.trans h1.2.1, h2.2.2.trans h1.2.2⟩

/-- The table on which `tfp410_enable` calls the input's `enable` has the
links of the table at entry, under the link contract. -/
theorem tfp410_enable_devs_kept {ρ : Type} (up : UpstreamOps (omap_video_timings ρ))
    (w : TfpWorld ρ) (hc : link_contract up w.ddata.in_ w.ddata.dssdev) :
    links_kept w.ddata.dssdev w.devs (tfp410_enable_devs up w) := by
  unfold tfp410_enable_devs
  split
  · exact links_kept_trans _ _ _ _ (hc.set_timings_keeps _ _) (hc.set_data_lines_keeps _ _)
  · exact hc.set_timings_keeps _ _

/-- What one call on a TFP410 node does to the links and to the display
state of the node, under the link contract.  Either every `src` link and the
node's `dst` are as before and the display state is as before or was set by
enable on the connected node or cleared by disable; or the call is an
accepted connect on a node that was not connected; or it is a forwarded
disconnect with the node's `dst`. -/
theorem tfp410_step_effect {ρ : Type} (gv : Int → Bool) (w : TfpWorld ρ)
    (s : Op (omap_video_timings ρ) × UpstreamOps (omap_video_timings ρ))
    (hc : link_contract s.2 w.ddata.in_ w.ddata.dssdev) :
    ((∀ d, ((tfp410_step gv w s).devs d).src = (w.devs d).src) ∧
        ((tfp410_step gv w s).devs w.ddata.dssdev).dst = (w.devs w.ddata.dssdev).dst ∧
        (((tfp410_step gv w s).devs w.ddata.dssdev).state = (w.devs w.ddata.dssdev).state ∨
          (s.1 = Op.enable ∧ (w.devs w.ddata.dssdev).src.isSome = true ∧
            ((tfp410_step gv w s).devs w.ddata.dssdev).state = OMAP_DSS_DISPLAY_ACTIVE) ∨
          (s.1 = Op.disable ∧
            ((tfp410_step gv w s).devs w.ddata.dssdev).state = OMAP_DSS_DISPLAY_DISABLED))) ∨
    (∃ dst b, s.1 = Op.connect dst ∧ (w.devs w.ddata.dssdev).src = none ∧
        input_frame w.ddata.dssdev w.devs b ∧ (∃ x, x ≠ w.ddata.dssdev ∧
          (b w.ddata.dssdev).src = some x) ∧
        (tfp410_step gv w s).devs
          = set_dst (set_src b dst (some w.ddata.dssdev)) w.ddata.dssdev (some dst)) ∨
    (∃ dst, s.1 = Op.disconnect dst ∧ (w.devs w.ddata.dssdev).dst = some dst ∧
        input_frame w.ddata.dssdev
          (set_dst (set_src w.devs dst none) w.ddata.dssdev none)
          ((tfp410_step gv w s).devs) ∧
        (((tfp410_step gv w s).devs w.ddata.dssdev).src = none ∨
          ((w.devs w.ddata.dssdev).state = OMAP_DSS_DISPLAY_ACTIVE ∧
            ((tfp410_step gv w s).devs w.ddata.dssdev).src
              = (set_dst (set_src w.devs dst none) w.ddata.dssdev none w.ddata.dssdev).src))) := by
  obtain ⟨op, up⟩ := s
  simp only at hc
  cases op with
  | connect dst =>
    simp only [tfp410_step, tfp410_connect, World.logged, omapdss_device_is_connected]
    by_cases hs : (w.devs w.ddata.dssdev).src = none
    · by_cases hr : (up.connect w.devs w.ddata.in_ w.ddata.dssdev).1 = 0
      · right; left
        refine ⟨dst, (up.connect w.devs w.ddata.in_ w.ddata.dssdev).2, rfl, hs,
          hc.connect_frame _, hc.connect_accepted _ hr, ?_⟩
        simp [hs, hr]
      · left
        have hf := hc.connect_frame w.devs
        have hk := hc.connect_refused w.devs hr
        simp only [hs, Option.isSome_none, Bool.false_eq_true, if_false, hr, ne_eq,
          not_false_eq_true, if_true]
        refine ⟨?_, hf.2.1, Or.inl hf.2.2⟩
        intro d
        by_cases hd : d = w.ddata.dssdev
        · rw [hd]; exact hk
        · exact hf.1 d hd
    · left
      obtain ⟨x, hx⟩ := Option.ne_none_iff_exists'.1 hs
      simp [hx]
  | disconnect dst =>
    simp only [tfp410_step, tfp410_disconnect, World.logged, World.WARN_ON,
      omapdss_device_is_connected]
    by_cases hs : (w.devs w.ddata.dssdev).src = none
    · left
      simp [hs]
    · obtain ⟨x, hx⟩ := Option.ne_none_iff_exists'.1 hs
      by_cases hd : (w.devs w.ddata.dssdev).dst = some dst
      · right; right
        refine ⟨dst, rfl, hd, ?_, ?_⟩
        · simpa [hx, hd] using hc.disconnect_frame
            (set_dst (set_src w.devs dst none) w.ddata.dssdev none)
        · have := hc.disconnect_unlinks
            (set_dst (set_src w.devs dst none) w.ddata.dssdev none)
          simpa [hx, hd] using this
      · left
        have hd2 : ¬ (some dst = (w.devs w.ddata.dssdev).dst) := fun h => hd h.symm
        simp [hx, hd2]
  | enable =>
    left
    by_cases hs : omapdss_device_is_connected (w.devs w.ddata.dssdev) = true
    · by_cases he : omapdss_device_is_enabled (w.devs w.ddata.dssdev) = true
      · simp [tfp410_step, tfp410_enable, hs, he]
      · have he2 : omapdss_device_is_enabled (w.devs w.ddata.dssdev) = false := by
          simpa using he
        have hk := links_kept_trans _ _ _ _ (tfp410_enable_devs_kept up w hc)
          (hc.enable_keeps (tfp410_enable_devs up w))
        simp only [tfp410_step]
        rw [tfp410_enable_forwarded gv up w hs he2]
        by_cases hr : (up.enable (tfp410_enable_devs up w) w.ddata.in_).1 = 0
        · simp only [hr, ne_eq, not_true_eq_false, if_false, set_state_src, set_state_dst,
            set_state_state, if_true]
          exact ⟨hk.1, hk.2.1, Or.inr (Or.inl ⟨trivial, hs, trivial⟩)⟩
        · simp only [hr, ne_eq, not_false_eq_true, if_true]
          exact ⟨hk.1, hk.2.1, Or.inl hk.2.2⟩
    · have hs2 : omapdss_device_is_connected (w.devs w.ddata.dssdev) = false := by
        simpa using hs
      simp [tfp410_step, tfp410_enable, hs2]
  | disable =>
    left
    have hk := hc.disable_keeps w.devs
    by_cases he : omapdss_device_is_enabled (w.devs w.ddata.dssdev) = true
    · by_cases hg : gv w.ddata.pd_gpio = true
      · simp only [tfp410_step, tfp410_disable, he, hg, World.logged, Bool.not_true,
          Bool.false_eq_true, if_false, if_true, set_state_src, set_state_dst, set_state_state]
        exact ⟨hk.1, hk.2.1, Or.inr (Or.inr ⟨trivial, trivial⟩)⟩
      · simp only [tfp410_step, tfp410_disable, he, hg, World.logged, Bool.not_true,
          Bool.false_eq_true, if_false, set_state_src, set_state_dst, set_state_state, if_true]
        exact ⟨hk.1, hk.2.1, Or.inr (Or.inr ⟨trivial, trivial⟩)⟩
    · have he2 : omapdss_device_is_enabled (w.devs w.ddata.dssdev) = false := by
        simpa using he
      simp [tfp410_step, tfp410_disable, he2]
  | set_timings t =>
    left
    have hk := hc.set_timings_keeps
      (set_panel_timings w.devs w.ddata.dssdev (tfp410_fix_timings t)) (tfp410_fix_timings t)
    simp only [tfp410_step, tfp410_set_timings, World.logged]
    refine ⟨fun d => ?_, ?_, Or.inl ?_⟩
    · rw [hk.1 d]; simp
    · rw [hk.2.1]; simp
    · rw [hk.2.2]; simp
  | get_timings =>
    left
    simp [tfp410_step]
  | check_timings t =>
    left
    have hk := hc.check_timings_keeps w.devs (tfp410_fix_timings t)
    simp only [tfp410_step, tfp410_check_timings, World.logged]
    exact ⟨hk.1, hk.2.1, Or.inl hk.2.2⟩

/-- What one call on an HDMI-to-DVI node does to the links and to the display
state of the node, under the link contract.  Either every `src` link and the
node's `dst` are as before and the display state is as before or was set by
enable or cleared by disable; or the call is an accepted connect; or it is a
forwarded disconnect with the node's `dst`. -/
theorem htod_step_effect {V : Type} (w : HtodWorld V) (s : Op V × UpstreamOps V)
    (hc : link_contract s.2 w.ddata.in_ w.ddata.dssdev) :
    ((∀ d, ((htod_step w s).devs d).src = (w.devs d).src) ∧
        ((htod_step w s).devs w.ddata.dssdev).dst = (w.devs w.ddata.dssdev).dst ∧
        (((htod_step w s).devs w.ddata.dssdev).state = (w.devs w.ddata.dssdev).state ∨
          (s.1 = Op.enable ∧
            ((htod_step w s).devs w.ddata.dssdev).state = OMAP_DSS_DISPLAY_ACTIVE) ∨
          (s.1 = Op.disable ∧
            ((htod_step w s).devs w.ddata.dssdev).state = OMAP_DSS_DISPLAY_DISABLED))) ∨
    (∃ dst b, s.1 = Op.connect dst ∧
        input_frame w.ddata.dssdev w.devs b ∧ (∃ x, x ≠ w.ddata.dssdev ∧
          (b w.ddata.dssdev).src = some x) ∧
        (htod_step w s).devs
          = set_dst (set_src b dst (some w.ddata.dssdev)) w.ddata.dssdev (some dst)) ∨
    (∃ dst, s.1 = Op.disconnect dst ∧ (w.devs w.ddata.dssdev).dst = some dst ∧
        input_frame w.ddata.dssdev
          (set_dst (set_src w.devs dst none) w.ddata.dssdev none)
          ((htod_step w s).devs) ∧
        (((htod_step w s).devs w.ddata.dssdev).src = none ∨
          ((w.devs w.ddata.dssdev).state = OMAP_DSS_DISPLAY_ACTIVE ∧
            ((htod_step w s).devs w.ddata.dssdev).src
              = (set_dst (set_src w.devs dst none) w.ddata.dssdev none w.ddata.dssdev).src))) := by
  obtain ⟨op, up⟩ := s
  simp only at hc
  cases op with
  | connect dst =>
    simp only [htod_step, htod_connect, World.logged]
    by_cases hr : (up.connect w.devs w.ddata.in_ w.ddata.dssdev).1 = 0
    · right; left
      refine ⟨dst, (up.connect w.devs w.ddata.in_ w.ddata.dssdev).2, rfl,
        hc.connect_frame _, hc.connect_accepted _ hr, ?_⟩
      simp [hr]
    · left
      have hf := hc.connect_frame w.devs
      have hk := hc.connect_refused w.devs hr
      simp only [hr, ne_eq, not_false_eq_true, if_true]
      refine ⟨?_, hf.2.1, Or.inl hf.2.2⟩
      intro d
      by_cases hd : d = w.ddata.dssdev
      · rw [hd]; exact hk
      · exact hf.1 d hd
  | disconnect dst =>
    simp only [htod_step, htod_disconnect, World.logged, World.WARN_ON]
    by_cases hd : (w.devs w.ddata.dssdev).dst = some dst
    · right; right
      refine ⟨dst, rfl, hd, ?_, ?_⟩
      · simpa [hd] using hc.disconnect_frame
          (set_dst (set_src w.devs dst none) w.ddata.dssdev none)
      · have := hc.disconnect_unlinks
          (set_dst (set_src w.devs dst none) w.ddata.dssdev none)
        simpa [hd] using this
    · left
      have hd2 : ¬ (some dst = (w.devs w.ddata.dssdev).dst) := fun h => hd h.symm
      simp [hd2]
  | enable =>
    left
    by_cases ha : (w.devs w.ddata.dssdev).state = OMAP_DSS_DISPLAY_ACTIVE
    · simp [htod_step, htod_enable, ha]
    · have hk := links_kept_trans _ _ _ _ (hc.set_timings_keeps w.devs w.ddata.vm)
        (hc.enable_keeps (up.set_timings w.devs w.ddata.in_ w.ddata.vm))
      by_cases hr : (up.enable (up.set_timings w.devs w.ddata.in_ w.ddata.vm)
          w.ddata.in_).1 = 0
      · simp only [htod_step, htod_enable, ha, hr, World.logged, if_false, ne_eq,
          not_true_eq_false, set_state_src, set_state_dst, set_state_state, if_true]
        exact ⟨hk.1, hk.2.1, Or.inr (Or.inl ⟨trivial, trivial⟩)⟩
      · simp only [htod_step, htod_enable, ha, hr, World.logged, if_false, ne_eq,
          not_false_eq_true, if_true]
        exact ⟨hk.1, hk.2.1, Or.inl hk.2.2⟩
  | disable =>
    left
    have hk := hc.disable_keeps w.devs
    by_cases ha : (w.devs w.ddata.dssdev).state = OMAP_DSS_DISPLAY_ACTIVE
    · simp only [htod_step, htod_disable, ha, World.logged, ne_eq, not_true_eq_false,
        if_false, set_state_src, set_state_dst, set_state_state, if_true]
      exact ⟨hk.1, hk.2.1, Or.inr (Or.inr ⟨trivial, trivial⟩)⟩
    · simp [htod_step, htod_disable, ha]
  | set_timings t =>
    left
    have hk := hc.set_timings_keeps (set_panel_timings w.devs w.ddata.dssdev t) t
    simp only [htod_step, htod_set_timings, World.logged]
    refine ⟨fun d => ?_, ?_, Or.inl ?_⟩
    · rw [hk.1 d]; simp
    · rw [hk.2.1]; simp
    · rw [hk.2.2]; simp
  | get_timings =>
    left
    simp [htod_step]
  | check_timings t =>
    left
    have hk := hc.check_timings_keeps w.devs t
    simp only [htod_step, htod_check_timings, World.logged]
    exact ⟨hk.1, hk.2.1, Or.inl hk.2.2⟩

/-- One call in order on a TFP410 node keeps: a connected node has a `dst`,
and an active node is connected. -/
theorem tfp410_step_in_order {ρ : Type} (gv : Int → Bool) (w : TfpWorld ρ)
    (s : Op (omap_video_timings ρ) × UpstreamOps (omap_video_timings ρ))
    (hc : link_contract s.2 w.ddata.in_ w.ddata.dssdev)
    (ho : ∀ dst, s.1 = Op.disconnect dst →
      (w.devs w.ddata.dssdev).state ≠ OMAP_DSS_DISPLAY_ACTIVE)
    (h1 : (w.devs w.ddata.dssdev).src.isSome = true → (w.devs w.ddata.dssdev).dst.isSome = true)
    (h2 : (w.devs w.ddata.dssdev).state = OMAP_DSS_DISPLAY_ACTIVE →
      (w.devs w.ddata.dssdev).src.isSome = true) :
    (((tfp410_step gv w s).devs w.ddata.dssdev).src.isSome = true →
        ((tfp410_step gv w s).devs w.ddata.dssdev).dst.isSome = true) ∧
      (((tfp410_step gv w s).devs w.ddata.dssdev).state = OMAP_DSS_DISPLAY_ACTIVE →
        ((tfp410_step gv w s).devs w.ddata.dssdev).src.isSome = true) := by
  rcases tfp410_step_effect gv w s hc with ⟨hs, hd, hst⟩ | ⟨dst, b, _, _, hf, ⟨x, _, hx⟩, he⟩ |
    ⟨dst, hop, _, hf, hu⟩
  · rw [hs, hd]
    refine ⟨h1, ?_⟩
    rcases hst with hst | ⟨_, hcon, _⟩ | ⟨_, hdis⟩
    · rw [hst]; exact h2
    · intro _; exact hcon
    · intro ha; rw [hdis] at ha; exact absurd ha (by decide)
  · rw [he]
    refine ⟨fun _ => by simp, fun _ => ?_⟩
    by_cases hd : w.ddata.dssdev = dst
    · simp [hd]
    · simp [hd, hx]
  · have hna := ho dst hop
    have hsrc : ((tfp410_step gv w s).devs w.ddata.dssdev).src = none := by
      rcases hu with hu | ⟨ha, _⟩
      · exact hu
      · exact absurd ha hna
    refine ⟨fun h => ?_, fun ha => ?_⟩
    · rw [hsrc] at h; exact absurd h (by simp)
    · rw [hf.2.2] at ha
      simp only [set_dst_state, set_src_state] at ha
      exact absurd ha hna

/-- One call in order on an HDMI-to-DVI node keeps: a connected node has a
`dst`, and an active node is connected. -/
theorem htod_step_in_order {V : Type} (w : HtodWorld V) (s : Op V × UpstreamOps V)
    (hc : link_contract s.2 w.ddata.in_ w.ddata.dssdev)
    (ho : ∀ dst, s.1 = Op.disconnect dst →
      (w.devs w.ddata.dssdev).state ≠ OMAP_DSS_DISPLAY_ACTIVE)
    (hoe : s.1 = Op.enable → (w.devs w.ddata.dssdev).src.isSome = true)
    (h1 : (w.devs w.ddata.dssdev).src.isSome = true → (w.devs w.ddata.dssdev).dst.isSome = true)
    (h2 : (w.devs w.ddata.dssdev).state = OMAP_DSS_DISPLAY_ACTIVE →
      (w.devs w.ddata.dssdev).src.isSome = true) :
    (((htod_step w s).devs w.ddata.dssdev).src.isSome = true →
        ((htod_step w s).devs w.ddata.dssdev).dst.isSome = true) ∧
      (((htod_step w s).devs w.ddata.dssdev).state = OMAP_DSS_DISPLAY_ACTIVE →
        ((htod_step w s).devs w.ddata.dssdev).src.isSome = true) := by
  rcases htod_step_effect w s hc with ⟨hs, hd, hst⟩ | ⟨dst, b, _, hf, ⟨x, _, hx⟩, he⟩ |
    ⟨dst, hop, _, hf, hu⟩
  · rw [hs, hd]
    refine ⟨h1, ?_⟩
    rcases hst with hst | ⟨hen, _⟩ | ⟨_, hdis⟩
    · rw [hst]; exact h2
    · intro _; exact hoe hen
    · intro ha; rw [hdis] at ha; exact absurd ha (by decide)
  · rw [he]
    refine ⟨fun _ => by simp, fun _ => ?_⟩
    by_cases hd : w.ddata.dssdev = dst
    · simp [hd]
    · simp [hd, hx]
  · have hna := ho dst hop
    have hsrc : ((htod_step w s).devs w.ddata.dssdev).src = none := by
      rcases hu with hu | ⟨ha, _⟩
      · exact hu
      · exact absurd ha hna
    refine ⟨fun h => ?_, fun ha => ?_⟩
    · rw [hsrc] at h; exact absurd h (by simp)
    · rw [hf.2.2] at ha
      simp only [set_dst_state, set_src_state] at ha
      exact absurd ha hna

/-- A sequence of calls in order on a TFP410 node keeps: a connected node has
a `dst`, and an active node is connected. -/
theorem tfp410_run_in_order {ρ : Type} (gv : Int → Bool)
    (steps : List (Op (omap_video_timings ρ) × UpstreamOps (omap_video_timings ρ)))
    (w : TfpWorld ρ)
    (hc : ∀ s ∈ steps, link_contract s.2 w.ddata.in_ w.ddata.dssdev)
    (ho : tfp410_in_order gv w steps = true)
    (h1 : (w.devs w.ddata.dssdev).src.isSome = true → (w.devs w.ddata.dssdev).dst.isSome = true)
    (h2 : (w.devs w.ddata.dssdev).state = OMAP_DSS_DISPLAY_ACTIVE →
      (w.devs w.ddata.dssdev).src.isSome = true) :
    (((tfp410_run gv w steps).devs w.ddata.dssdev).src.isSome = true →
        ((tfp410_run gv w steps).devs w.ddata.dssdev).dst.isSome = true) ∧
      (((tfp410_run gv w steps).devs w.ddata.dssdev).state = OMAP_DSS_DISPLAY_ACTIVE →
        ((tfp410_run gv w steps).devs w.ddata.dssdev).src.isSome = true) := by
  induction steps generalizing w with
  | nil => exact ⟨h1, h2⟩
  | cons s steps ih =>
    have hh := tfp410_step_handles gv w s
    simp only [tfp410_in_order, Bool.and_eq_true] at ho
    have hstep := tfp410_step_in_order gv w s (hc s (List.mem_cons_self _ _))
      (by
        intro dst hop
        have := ho.1
        rw [hop] at this
        simpa [omapdss_device_is_enabled] using this) h1 h2
    have := ih (tfp410_step gv w s)
      (by intro t ht; rw [hh.1, hh.2]; exact hc t (List.mem_cons_of_mem _ ht))
      ho.2 (by rw [hh.1]; exact hstep.1) (by rw [hh.1]; exact hstep.2)
    rw [hh.1] at this
    exact this

/-- A sequence of calls in order on an HDMI-to-DVI node keeps: a connected
node has a `dst`, and an active node is connected. -/
theorem htod_run_in_order {V : Type} (steps : List (Op V × UpstreamOps V))
    (w : HtodWorld V)
    (hc : ∀ s ∈ steps, link_contract s.2 w.ddata.in_ w.ddata.dssdev)
    (ho : htod_in_order w steps = true)
    (h1 : (w.devs w.ddata.dssdev).src.isSome = true → (w.devs w.ddata.dssdev).dst.isSome = true)
    (h2 : (w.devs w.ddata.dssdev).state = OMAP_DSS_DISPLAY_ACTIVE →
      (w.devs w.ddata.dssdev).src.isSome = true) :
    (((htod_run w steps).devs w.ddata.dssdev).src.isSome = true →
        ((htod_run w steps).devs w.ddata.dssdev).dst.isSome = true) ∧
      (((htod_run w steps).devs w.ddata.dssdev).state = OMAP_DSS_DISPLAY_ACTIVE →
        ((htod_run w steps).devs w.ddata.dssdev).src.isSome = true) := by
  induction steps generalizing w with
  | nil => exact ⟨h1, h2⟩
  | cons s steps ih =>
    have hh := htod_step_handles w s
    simp only [htod_in_order, Bool.and_eq_true] at ho
    have hstep := htod_step_in_order w s (hc s (List.mem_cons_self _ _))
      (by
        intro dst hop
        have := ho.1
        rw [hop] at this
        simpa [omapdss_device_is_enabled] using this)
      (by
        intro hop
        have := ho.1
        rw [hop] at this
        simpa [omapdss_device_is_connected] using this) h1 h2
    have := ih (htod_step w s)
      (by intro t ht; rw [hh.1, hh.2]; exact hc t (List.mem_cons_of_mem _ ht))
      ho.2 (by rw [hh.1]; exact hstep.1) (by rw [hh.1]; exact hstep.2)
    rw [hh.1] at this
    exact this

/-- The example input with given results keeps the link contract towards a
consumer other than itself. -/
theorem input_returning_contract (T : Type) (rc re rk : Int) (in_ dssdev : DevId)
    (h : in_ ≠ dssdev) : link_contract (input_returning T rc re rk) in_ dssdev := by
  have h2 : dssdev ≠ in_ := fun e => h e.symm
  refine ⟨?_, ?_, ?_, ?_, ?_, ?_, ?_, ?_, ?_, ?_⟩
  · intro devs
    by_cases hr : rc = 0
    · refine ⟨fun d hd => ?_, ?_, ?_⟩ <;> simp [input_returning, hr, h2, *]
    · refine ⟨fun d hd => ?_, ?_, ?_⟩ <;> simp [input_returning, hr]
  · intro devs hr
    by_cases hrc : rc = 0
    · simp [input_returning, hrc] at hr
    · simp [input_returning, hrc]
  · intro devs hr
    by_cases hrc : rc = 0
    · exact ⟨in_, h, by simp [input_returning, hrc]⟩
    · simp [input_returning, hrc] at hr
  · intro devs
    refine ⟨fun d hd => ?_, ?_, ?_⟩ <;> simp [input_returning, h2, *]
  · intro devs
    left
    simp [input_returning]
  · intro devs
    exact ⟨fun _ => rfl, rfl, rfl⟩
  · intro devs
    exact ⟨fun _ => rfl, rfl, rfl⟩
  · intro devs t
    exact ⟨fun _ => rfl, rfl, rfl⟩
  · intro devs n
    exact ⟨fun _ => rfl, rfl, rfl⟩
  · intro devs t
    exact ⟨fun _ => rfl, rfl, rfl⟩

/-- The example input that does not unlink an active consumer keeps the link
contract towards a consumer other than itself. -/
theorem holding_input_contract (T : Type) (in_ dssdev : DevId) (h : in_ ≠ dssdev) :
    link_contract (holding_input T) in_ dssdev := by
  have h2 : dssdev ≠ in_ := fun e => h e.symm
  refine ⟨?_, ?_, ?_, ?_, ?_, ?_, ?_, ?_, ?_, ?_⟩
  · intro devs
    refine ⟨fun d hd => ?_, ?_, ?_⟩ <;> simp [holding_input, accepting_input, h2, *]
  · intro devs hr
    simp [holding_input, accepting_input] at hr
  · intro devs _
    exact ⟨in_, h, by simp [holding_input, accepting_input]⟩
  · intro devs
    by_cases ha : (devs dssdev).state = OMAP_DSS_DISPLAY_ACTIVE
    · refine ⟨fun d hd => ?_, ?_, ?_⟩ <;> simp [holding_input, ha]
    · refine ⟨fun d hd => ?_, ?_, ?_⟩ <;> simp [holding_input, ha, h2, *]
  · intro devs
    by_cases ha : (devs dssdev).state = OMAP_DSS_DISPLAY_ACTIVE
    · right
      simp [holding_input, ha]
    · left
      simp [holding_input, ha]
  · intro devs
    exact ⟨fun _ => rfl, rfl, rfl⟩
  · intro devs
    exact ⟨fun _ => rfl, rfl, rfl⟩
  · intro devs t
    exact ⟨fun _ => rfl, rfl, rfl⟩
  · intro devs n
    exact ⟨fun _ => rfl, rfl, rfl⟩
  · intro devs t
    exact ⟨fun _ => rfl, rfl, rfl⟩

/-- One call on a TFP410 node keeps, under the link contract: the node's `dst`
is exactly the device whose `src` is the node, and a node that is not
connected has no `dst`. -/
theorem tfp410_step_back_links {ρ : Type} (gv : Int → Bool) (w : TfpWorld ρ)
    (s : Op (omap_video_timings ρ) × UpstreamOps (omap_video_timings ρ))
    (hc : link_contract s.2 w.ddata.in_ w.ddata.dssdev)
    (hJ : ∀ d, (w.devs w.ddata.dssdev).dst = some d ↔ (w.devs d).src = some w.ddata.dssdev)
    (hK : (w.devs w.ddata.dssdev).src = none → (w.devs w.ddata.dssdev).dst = none) :
    (∀ d, ((tfp410_step gv w s).devs w.ddata.dssdev).dst = some d ↔
        ((tfp410_step gv w s).devs d).src = some w.ddata.dssdev) ∧
      (((tfp410_step gv w s).devs w.ddata.dssdev).src = none →
        ((tfp410_step gv w s).devs w.ddata.dssdev).dst = none) := by
  rcases tfp410_step_effect gv w s hc with ⟨hs, hd, _⟩ | ⟨dst, b, _, hsn, hf, ⟨x, hxn, hx⟩, he⟩ |
    ⟨dst, _, hdst, hf, hu⟩
  · rw [hd, hs]
    exact ⟨fun d => by rw [hs d]; exact hJ d, hK⟩
  · have hno : ∀ d, (w.devs d).src ≠ some w.ddata.dssdev := by
      intro d h
      have := (hJ d).2 h
      rw [hK hsn] at this
      exact absurd this (by simp)
    rw [he]
    refine ⟨fun d => ?_, fun h => ?_⟩
    · simp only [set_dst_dst, set_dst_src, set_src_src, if_true]
      by_cases h1 : d = dst
      · subst h1; simp
      · by_cases h2 : d = w.ddata.dssdev
        · subst h2
          simp [h1, Ne.symm h1, hx, hxn]
        · have := hno d
          simp [h1, Ne.symm h1, hf.1 d h2, this]
    · simp only [set_dst_src, set_src_src] at h
      split at h
      · simp at h
      · rw [hx] at h; simp at h
  · have hno : ∀ d, (set_dst (set_src w.devs dst none) w.ddata.dssdev none d).src
        ≠ some w.ddata.dssdev := by
      intro d h
      simp only [set_dst_src, set_src_src] at h
      split at h
      · simp at h
      · rename_i hne
        have := (hJ d).2 h
        rw [hdst] at this
        exact hne (Option.some.inj this).symm
    have hdn : ((tfp410_step gv w s).devs w.ddata.dssdev).dst = none := by
      rw [hf.2.1]; simp
    refine ⟨fun d => ?_, fun _ => hdn⟩
    rw [hdn]
    constructor
    · intro h; exact absurd h (by simp)
    · intro h
      exfalso
      by_cases h2 : d = w.ddata.dssdev
      · subst h2
        rcases hu with hu | ⟨_, hu⟩
        · rw [hu] at h; simp at h
        · rw [hu] at h; exact hno _ h
      · rw [hf.1 d h2] at h
        exact hno d h

/-- A sequence of calls on a TFP410 node keeps, under the link contract: the
node's `dst` is exactly the device whose `src` is the node, and a node that is
not connected has no `dst`. -/
theorem tfp410_run_back_links {ρ : Type} (gv : Int → Bool)
    (steps : List (Op (omap_video_timings ρ) × UpstreamOps (omap_video_timings ρ)))
    (w : TfpWorld ρ)
    (hc : ∀ s ∈ steps, link_contract s.2 w.ddata.in_ w.ddata.dssdev)
    (hJ : ∀ d, (w.devs w.ddata.dssdev).dst = some d ↔ (w.devs d).src = some w.ddata.dssdev)
    (hK : (w.devs w.ddata.dssdev).src = none → (w.devs w.ddata.dssdev).dst = none) :
    ∀ d, ((tfp410_run gv w steps).devs w.ddata.dssdev).dst = some d ↔
      ((tfp410_run gv w steps).devs d).src = some w.ddata.dssdev := by
  induction steps generalizing w with
  | nil => exact hJ
  | cons s steps ih =>
    have hs := tfp410_step_back_links gv w s (hc s (List.mem_cons_self _ _)) hJ hK
    have hh := tfp410_step_handles gv w s
    have := ih (tfp410_step gv w s)
      (by intro t ht; rw [hh.1, hh.2]; exact hc t (List.mem_cons_of_mem _ ht))
      (by rw [hh.1]; exact hs.1) (by rw [hh.1]; exact hs.2)
    rw [hh.1] at this
    exact this

/-- One call on an HDMI-to-DVI node keeps, under the link contract: the
device the node's `dst` names has the node as its `src`. -/
theorem htod_step_dst_src {V : Type} (w : HtodWorld V) (s : Op V × UpstreamOps V)
    (hc : link_contract s.2 w.ddata.in_ w.ddata.dssdev)
    (hJ : ∀ d, (w.devs w.ddata.dssdev).dst = some d → (w.devs d).src = some w.ddata.dssdev) :
    ∀ d, ((htod_step w s).devs w.ddata.dssdev).dst = some d →
      ((htod_step w s).devs d).src = some w.ddata.dssdev := by
  rcases htod_step_effect w s hc with ⟨hs, hd, _⟩ | ⟨dst, b, _, _, _, he⟩ |
    ⟨dst, _, _, hf, _⟩
  · intro d h
    rw [hd] at h
    rw [hs d]
    exact hJ d h
  · intro d h
    rw [he] at h ⊢
    simp only [set_dst_dst, if_true] at h
    have hd : dst = d := Option.some.inj h
    subst hd
    simp
  · intro d h
    rw [hf.2.1] at h
    simp at h

/-- A sequence of calls on an HDMI-to-DVI node keeps, under the link contract:
the device the node's `dst` names has the node as its `src`. -/
theorem htod_run_dst_src {V : Type} (steps : List (Op V × UpstreamOps V))
    (w : HtodWorld V)
    (hc : ∀ s ∈ steps, link_contract s.2 w.ddata.in_ w.ddata.dssdev)
    (hJ : ∀ d, (w.devs w.ddata.dssdev).dst = some d → (w.devs d).src = some w.ddata.dssdev) :
    ∀ d, ((htod_run w steps).devs w.ddata.dssdev).dst = some d →
      ((htod_run w steps).devs d).src = some w.ddata.dssdev := by
  induction steps generalizing w with
  | nil => exact hJ
  | cons s steps ih =>
    have hs := htod_step_dst_src w s (hc s (List.mem_cons_self _ _)) hJ
    have hh := htod_step_handles w s
    have := ih (htod_step w s)
      (by intro t ht; rw [hh.1, hh.2]; exact hc t (List.mem_cons_of_mem _ ht))
      (by rw [hh.1]; exact hs)
    rw [hh.1] at this
    exact this

end OmapEncoder
